import Mathlib

/-!
Verification of the actor-manipulation server (unreal_mcp_server.py).

The Python module issues synchronous HTTP calls to an engine endpoint.  We
embed it shallowly: the remote engine is an oracle `Env` mapping the full
history of issued calls to a response, and every embedded operation threads
the trace of calls it has issued so far.  A response is either a transport
failure (any `requests.exceptions.RequestException`: timeout, connection
failure, or a non-2xx status surfaced by `raise_for_status`) or a parsed
JSON body whose optional `ReturnValue` is one of the shapes the code reads:
a string reference, a list of string references, or a component mapping
with optional numeric fields.  Numeric values are modelled as rationals.
-/

abbrev Vec3 := Rat × Rat × Rat

/-- A component mapping such as `{"X": ..., "Y": ..., "Z": ...}` (or
`Pitch`/`Yaw`/`Roll` for rotations, matched by position) in which any
component may be absent, as read by `dict.get` with a default. -/
structure OptVec where
  x : Option Rat
  y : Option Rat
  z : Option Rat
deriving DecidableEq

/-- The `ReturnValue` field of a parsed response body.  `none` means the
field is absent.  For calls from which the code reads a string reference,
a non-string value is modelled as absent. -/
inductive RetVal where
  | none
  | str (s : String)
  | strList (l : List String)
  | vecP (v : OptVec)
deriving DecidableEq

/-- The three wire encodings of the transform payload tried by
`duplicate_snowman`: A is the structured-typed object form, B the
flat-field form (`transform_alt1`), C the positional-array form
(`transform_alt2`).  All three carry the requested translation and scale
and an identity quaternion rotation. -/
inductive TVariant where
  | A
  | B
  | C
deriving DecidableEq

/-- One remote call, identified by the engine function invoked and the
data that varies in its payload. -/
inductive Call where
  | getAllLevelActors
  | spawnActorFromClass (cls : String) (loc rot : Vec3)
  | duplicate (src : String) (v : TVariant) (loc scl : Vec3)
  | setActorLocation (obj : String) (loc : Vec3)
  | setActorRotation (obj : String) (rot : Vec3)
  | setActorScale3D (obj : String) (scl : Vec3)
  | setActorLabel (obj : String) (label : String)
  | getActorLocation (obj : String)
  | getActorRotation (obj : String)
  | getActorScale3D (obj : String)
deriving DecidableEq

/-- Outcome of one remote call: a raised transport exception (with the
message produced by `str(e)`), or a parsed body with its `ReturnValue`. -/
inductive Resp where
  | error (msg : String)
  | ok (ret : RetVal)
deriving DecidableEq

/-- The engine oracle: the response to the latest call, as a function of
the entire history of calls issued so far (the latest call included). -/
abbrev Env := List Call → Resp

def Resp.isOk : Resp → Bool
  | Resp.ok _ => true
  | Resp.error _ => false

def RetVal.asStrOpt : RetVal → Option String
  | RetVal.str s => some s
  | _ => Option.none

/-- `result.get("ReturnValue", [])` for the actor-listing call; a present
value of a non-list shape is modelled as the empty list. -/
def RetVal.asStrList : RetVal → List String
  | RetVal.strList l => l
  | _ => []

/-- Python truthiness on an optional string: `None` and the empty string
are falsy. -/
def truthyOpt : Option String → Option String
  | Option.none => Option.none
  | some s => if s.isEmpty then Option.none else some s

/-- Composition of `result.get("ReturnValue", d3)` and the per-component
`current.get(k, d)` defaults, where `d3` is the all-`d` mapping.  A present
`ReturnValue` that is not a mapping makes the subsequent `.get` raise, so
it yields no value here. -/
def retVec (rv : RetVal) (d : Rat) : Option Vec3 :=
  match rv with
  | RetVal.none => some (d, d, d)
  | RetVal.vecP v => some (v.x.getD d, v.y.getD d, v.z.getD d)
  | _ => Option.none

/-- `get_all_level_actors`: one `GetAllLevelActors` call; a transport
exception is caught and yields the empty list. -/
def get_all_level_actors (env : Env) (tr : List Call) : List String × List Call :=
  match env (tr ++ [Call.getAllLevelActors]) with
  | Resp.error _ => ([], tr ++ [Call.getAllLevelActors])
  | Resp.ok r => (r.asStrList, tr ++ [Call.getAllLevelActors])

/-- The trailing `if name:` block of `spawn_blueprint_actor`: a truthy
label is set with `SetActorLabel`; a raised transport exception is caught
by the enclosing handler, which returns `None`. -/
def spawn_setLabel (env : Env) (tr : List Call) (path : String)
    (name : Option String) : Option String × List Call :=
  match truthyOpt name with
  | Option.none => (some path, tr)
  | some n =>
    match env (tr ++ [Call.setActorLabel path n]) with
    | Resp.error _ => (Option.none, tr ++ [Call.setActorLabel path n])
    | Resp.ok _ => (some path, tr ++ [Call.setActorLabel path n])

/-- The `if scale != (1, 1, 1):` block of `spawn_blueprint_actor`,
followed by the label block; a raised transport exception on the scale
call is caught by the enclosing handler, which returns `None`. -/
def spawn_setScale (env : Env) (tr : List Call) (path : String)
    (scl : Vec3) (name : Option String) : Option String × List Call :=
  if scl = ((1 : Rat), (1 : Rat), (1 : Rat)) then
    spawn_setLabel env tr path name
  else
    match env (tr ++ [Call.setActorScale3D path scl]) with
    | Resp.error _ => (Option.none, tr ++ [Call.setActorScale3D path scl])
    | Resp.ok _ => spawn_setLabel env (tr ++ [Call.setActorScale3D path scl]) path name

/-- `spawn_blueprint_actor`: one `SpawnActorFromClass` call; a falsy
`ReturnValue` yields `None`; otherwise the optional scale and label calls
run inside the same exception handler, so any raised transport exception
makes the whole function return `None`. -/
def spawn_blueprint_actor (env : Env) (tr : List Call) (bp : String)
    (loc rot scl : Vec3) (name : Option String) : Option String × List Call :=
  match env (tr ++ [Call.spawnActorFromClass bp loc rot]) with
  | Resp.error _ => (Option.none, tr ++ [Call.spawnActorFromClass bp loc rot])
  | Resp.ok r =>
    match truthyOpt r.asStrOpt with
    | Option.none => (Option.none, tr ++ [Call.spawnActorFromClass bp loc rot])
    | some path => spawn_setScale env (tr ++ [Call.spawnActorFromClass bp loc rot]) path scl name

/-- The list comprehension `[actor for actor in after if actor not in before]`. -/
def newActorsOf (before after : List String) : List String :=
  after.filter (fun a => !(before.contains a))

/-- Result of the reference-resolution phase of `duplicate_snowman`:
`aborted` when a transport exception was raised (the enclosing handler
returns `None`), `unresolved` when all three variants were exhausted with
no detectable new actor (the inner `return None`), `found p` when the
variable `new_actor_path` was assigned the string `p` (which may be empty
when it came from the snapshot diff). -/
inductive DupRes where
  | aborted
  | unresolved
  | found (path : String)
deriving DecidableEq

/-- One retried tier of `duplicate_snowman` (variants B and C): issue the
`Duplicate` call with the alternate payload, list the actors again, and
take the last actor absent from `before`.  The return value of the retried
call is never read. -/
def dup_tryDiff (env : Env) (tr : List Call) (src : String) (loc scl : Vec3)
    (v : TVariant) (before : List String) : DupRes × List Call :=
  match env (tr ++ [Call.duplicate src v loc scl]) with
  | Resp.error _ => (DupRes.aborted, tr ++ [Call.duplicate src v loc scl])
  | Resp.ok _ =>
    let g := get_all_level_actors env (tr ++ [Call.duplicate src v loc scl])
    match (newActorsOf before g.1).getLast? with
    | some p => (DupRes.found p, g.2)
    | Option.none => (DupRes.unresolved, g.2)

/-- The resolution ladder of `duplicate_snowman`: variant A first reads
the `ReturnValue` of its own call (truthiness check `if not
new_actor_path`), then falls back to the snapshot diff; variants B and C
use only the snapshot diff; each later variant runs only when the
previous one resolved nothing. -/
def dup_resolve (env : Env) (tr : List Call) (src : String) (loc scl : Vec3)
    (before : List String) : DupRes × List Call :=
  match env (tr ++ [Call.duplicate src TVariant.A loc scl]) with
  | Resp.error _ => (DupRes.aborted, tr ++ [Call.duplicate src TVariant.A loc scl])
  | Resp.ok r =>
    match truthyOpt r.asStrOpt with
    | some p => (DupRes.found p, tr ++ [Call.duplicate src TVariant.A loc scl])
    | Option.none =>
      let g := get_all_level_actors env (tr ++ [Call.duplicate src TVariant.A loc scl])
      match (newActorsOf before g.1).getLast? with
      | some p => (DupRes.found p, g.2)
      | Option.none =>
        match dup_tryDiff env g.2 src loc scl TVariant.B before with
        | (DupRes.unresolved, t2) => dup_tryDiff env t2 src loc scl TVariant.C before
        | other => other

/-- The post-correction block of `duplicate_snowman` (lines 296-344): set
location, rotation, scale, and a truthy label in order; a raised transport
exception on any of them is caught by the enclosing handler, which
returns `None`. -/
def dup_corrections (env : Env) (tr : List Call) (path : String)
    (loc rot scl : Vec3) (name : Option String) : Option String × List Call :=
  match env (tr ++ [Call.setActorLocation path loc]) with
  | Resp.error _ => (Option.none, tr ++ [Call.setActorLocation path loc])
  | Resp.ok _ =>
    match env (tr ++ [Call.setActorLocation path loc, Call.setActorRotation path rot]) with
    | Resp.error _ =>
      (Option.none, tr ++ [Call.setActorLocation path loc, Call.setActorRotation path rot])
    | Resp.ok _ =>
      match env (tr ++ [Call.setActorLocation path loc, Call.setActorRotation path rot,
          Call.setActorScale3D path scl]) with
      | Resp.error _ =>
        (Option.none, tr ++ [Call.setActorLocation path loc, Call.setActorRotation path rot,
          Call.setActorScale3D path scl])
      | Resp.ok _ =>
        match truthyOpt name with
        | Option.none =>
          (some path, tr ++ [Call.setActorLocation path loc, Call.setActorRotation path rot,
            Call.setActorScale3D path scl])
        | some n =>
          match env (tr ++ [Call.setActorLocation path loc, Call.setActorRotation path rot,
              Call.setActorScale3D path scl, Call.setActorLabel path n]) with
          | Resp.error _ =>
            (Option.none, tr ++ [Call.setActorLocation path loc, Call.setActorRotation path rot,
              Call.setActorScale3D path scl, Call.setActorLabel path n])
          | Resp.ok _ =>
            (some path, tr ++ [Call.setActorLocation path loc, Call.setActorRotation path rot,
              Call.setActorScale3D path scl, Call.setActorLabel path n])

/-- `duplicate_snowman`: snapshot before, resolve a reference through the
variant ladder, then apply the corrective calls.  The final `if
new_actor_path:` truthiness check sends an empty resolved string to the
trailing `return None`. -/
def duplicate_snowman (env : Env) (tr : List Call) (src : String)
    (loc rot scl : Vec3) (name : Option String) : Option String × List Call :=
  let b := get_all_level_actors env tr
  match dup_resolve env b.2 src loc scl b.1 with
  | (DupRes.aborted, t) => (Option.none, t)
  | (DupRes.unresolved, t) => (Option.none, t)
  | (DupRes.found p, t) =>
    if p.isEmpty then (Option.none, t)
    else dup_corrections env t p loc rot scl name

/-- The JSON values the tool surface serialises with `json.dumps`;
`json.dumps` itself is abstracted away and a tool result is modelled as
the value it serialises. -/
inductive J where
  | s (v : String)
  | q (v : Rat)
  | b (v : Bool)
  | arr (l : List J)
  | obj (fields : List (String × J))
  | null

/-- Value of a key in a JSON object. -/
def J.getField : J → String → Option J
  | J.obj fs, k => (fs.find? (fun p => p.1 == k)).map (fun p => p.2)
  | _, _ => Option.none

/-- Whether a JSON object carries a key. -/
def J.hasKey (j : J) (k : String) : Bool :=
  match j with
  | J.obj fs => fs.any (fun p => p.1 == k)
  | _ => false

/-- Python `"Snowman_BP" in actor_path` for a non-empty pattern. -/
def strContainsSub (hay pat : String) : Bool :=
  (hay.splitOn pat).length != 1

/-- `name or "Unnamed"` in `spawn_actor`. -/
def nameOrUnnamed : Option String → String
  | Option.none => "Unnamed"
  | some s => if s.isEmpty then "Unnamed" else s

def jVecXYZ (v : Vec3) : J :=
  J.obj [("x", J.q v.1), ("y", J.q v.2.1), ("z", J.q v.2.2)]

def jVecPYR (v : Vec3) : J :=
  J.obj [("pitch", J.q v.1), ("yaw", J.q v.2.1), ("roll", J.q v.2.2)]

/-- The location block of `modify_actor`: runs only when some coordinate
was given; reads the current location (`dict.get` defaults of 0), overlays
the given coordinates, and issues one set call.  Returns the `modified`
flag it contributes, the `results` entries it appends, and the trace. -/
def modify_locBlock (env : Env) (tr : List Call) (actor : String)
    (x y z : Option Rat) : Bool × List (String × J) × List Call :=
  if x.isSome || y.isSome || z.isSome then
    match env (tr ++ [Call.getActorLocation actor]) with
    | Resp.error m => (false, [("location_error", J.s m)], tr ++ [Call.getActorLocation actor])
    | Resp.ok rv =>
      match retVec rv 0 with
      | Option.none =>
        (false, [("location_error", J.s "AttributeError")], tr ++ [Call.getActorLocation actor])
      | some c =>
        match env (tr ++ [Call.getActorLocation actor,
            Call.setActorLocation actor (x.getD c.1, y.getD c.2.1, z.getD c.2.2)]) with
        | Resp.error m =>
          (false, [("location_error", J.s m)], tr ++ [Call.getActorLocation actor,
            Call.setActorLocation actor (x.getD c.1, y.getD c.2.1, z.getD c.2.2)])
        | Resp.ok _ =>
          (true, [("location_cm", jVecXYZ (x.getD c.1, y.getD c.2.1, z.getD c.2.2))],
            tr ++ [Call.getActorLocation actor,
              Call.setActorLocation actor (x.getD c.1, y.getD c.2.1, z.getD c.2.2)])
  else (false, [], tr)

/-- The rotation block of `modify_actor`, analogous to the location block
with `Pitch`/`Yaw`/`Roll` components and defaults of 0. -/
def modify_rotBlock (env : Env) (tr : List Call) (actor : String)
    (pitch yaw roll : Option Rat) : Bool × List (String × J) × List Call :=
  if pitch.isSome || yaw.isSome || roll.isSome then
    match env (tr ++ [Call.getActorRotation actor]) with
    | Resp.error m => (false, [("rotation_error", J.s m)], tr ++ [Call.getActorRotation actor])
    | Resp.ok rv =>
      match retVec rv 0 with
      | Option.none =>
        (false, [("rotation_error", J.s "AttributeError")], tr ++ [Call.getActorRotation actor])
      | some c =>
        match env (tr ++ [Call.getActorRotation actor,
            Call.setActorRotation actor (pitch.getD c.1, yaw.getD c.2.1, roll.getD c.2.2)]) with
        | Resp.error m =>
          (false, [("rotation_error", J.s m)], tr ++ [Call.getActorRotation actor,
            Call.setActorRotation actor (pitch.getD c.1, yaw.getD c.2.1, roll.getD c.2.2)])
        | Resp.ok _ =>
          (true, [("rotation", jVecPYR (pitch.getD c.1, yaw.getD c.2.1, roll.getD c.2.2))],
            tr ++ [Call.getActorRotation actor,
              Call.setActorRotation actor (pitch.getD c.1, yaw.getD c.2.1, roll.getD c.2.2)])
  else (false, [], tr)

/-- The `results["scale"]` value, which also reports physical dimensions
when the actor path mentions the snowman blueprint. -/
def scaleResult (actor : String) (s : Vec3) : J :=
  if strContainsSub actor "Snowman_BP" then
    J.obj [("x", J.q s.1), ("y", J.q s.2.1), ("z", J.q s.2.2),
      ("actual_dimensions_cm",
        J.obj [("width", J.q (350 * s.1)), ("length", J.q (350 * s.2.1))])]
  else jVecXYZ s

/-- The scale block of `modify_actor`, with `dict.get` defaults of 1. -/
def modify_scaleBlock (env : Env) (tr : List Call) (actor : String)
    (sx sy sz : Option Rat) : Bool × List (String × J) × List Call :=
  if sx.isSome || sy.isSome || sz.isSome then
    match env (tr ++ [Call.getActorScale3D actor]) with
    | Resp.error m => (false, [("scale_error", J.s m)], tr ++ [Call.getActorScale3D actor])
    | Resp.ok rv =>
      match retVec rv 1 with
      | Option.none =>
        (false, [("scale_error", J.s "AttributeError")], tr ++ [Call.getActorScale3D actor])
      | some c =>
        match env (tr ++ [Call.getActorScale3D actor,
            Call.setActorScale3D actor (sx.getD c.1, sy.getD c.2.1, sz.getD c.2.2)]) with
        | Resp.error m =>
          (false, [("scale_error", J.s m)], tr ++ [Call.getActorScale3D actor,
            Call.setActorScale3D actor (sx.getD c.1, sy.getD c.2.1, sz.getD c.2.2)])
        | Resp.ok _ =>
          (true, [("scale", scaleResult actor (sx.getD c.1, sy.getD c.2.1, sz.getD c.2.2))],
            tr ++ [Call.getActorScale3D actor,
              Call.setActorScale3D actor (sx.getD c.1, sy.getD c.2.1, sz.getD c.2.2)])
  else (false, [], tr)

/-- The name block of `modify_actor`: guarded by `if name is not None`
(no truthiness check, unlike the spawn and duplicate paths). -/
def modify_nameBlock (env : Env) (tr : List Call) (actor : String)
    (name : Option String) : Bool × List (String × J) × List Call :=
  match name with
  | Option.none => (false, [], tr)
  | some n =>
    match env (tr ++ [Call.setActorLabel actor n]) with
    | Resp.error m => (false, [("name_error", J.s m)], tr ++ [Call.setActorLabel actor n])
    | Resp.ok _ => (true, [("name", J.s n)], tr ++ [Call.setActorLabel actor n])

/-- `modify_actor`: the four blocks run in order, each appending its
`results` entries and OR-ing into `modified`; the final response reports
success when any block succeeded and otherwise the
`No modifications were specified` failure. -/
def modify_actor (env : Env) (tr : List Call) (actor : String)
    (x y z pitch yaw roll sx sy sz : Option Rat) (name : Option String) :
    J × List Call :=
  let L := modify_locBlock env tr actor x y z
  let R := modify_rotBlock env L.2.2 actor pitch yaw roll
  let S := modify_scaleBlock env R.2.2 actor sx sy sz
  let N := modify_nameBlock env S.2.2 actor name
  let results := L.2.1 ++ R.2.1 ++ S.2.1 ++ N.2.1
  if L.1 || R.1 || S.1 || N.1 then
    (J.obj [("success", J.b true), ("actor_path", J.s actor), ("modified", J.obj results)],
      N.2.2)
  else
    (J.obj [("success", J.b false), ("actor_path", J.s actor),
      ("error", J.s "No modifications were specified"), ("results", J.obj results)],
      N.2.2)

/-- `get_all_scene_actors` tool: lists the actors and serialises them with
their count.  Its exception branch (a plain, non-JSON error string) is
unreachable here because the helper traps every transport failure. -/
def get_all_scene_actors (env : Env) (tr : List Call) : J × List Call :=
  let a := get_all_level_actors env tr
  (J.obj [("actors", J.arr (a.1.map J.s)), ("count", J.q a.1.length)], a.2)

/-- `spawn_actor` tool: delegates to `spawn_blueprint_actor` and wraps the
outcome in a success or failure object. -/
def spawn_actor (env : Env) (tr : List Call) (bp : String)
    (x y z pitch yaw roll sx sy sz : Rat) (name : Option String) : J × List Call :=
  let r := spawn_blueprint_actor env tr bp (x, y, z) (pitch, yaw, roll) (sx, sy, sz) name
  match r.1 with
  | some p =>
    (J.obj [("success", J.b true), ("actor_path", J.s p),
      ("location_cm", jVecXYZ (x, y, z)),
      ("rotation", jVecPYR (pitch, yaw, roll)),
      ("scale", jVecXYZ (sx, sy, sz)),
      ("name", J.s (nameOrUnnamed name))], r.2)
  | Option.none =>
    (J.obj [("success", J.b false), ("error", J.s "Failed to spawn actor")], r.2)

/-- One actor-creation attempt of the family tool, used to state how many
spawn and duplicate operations a run performs. -/
inductive OpEvent where
  | spawnAttempt
  | dupAttempt
deriving DecidableEq

/-- One entry of the `snowmen` list in the family tool response. -/
def snowmanEntry (path : String) (pos scl rot : Vec3) (nm : String) : J :=
  J.obj [("actor_path", J.s path),
    ("location_cm", jVecXYZ pos),
    ("size_cm", J.obj [("width", J.q (350 * scl.1)), ("length", J.q (350 * scl.2.1))]),
    ("rotation", jVecPYR rot),
    ("scale", jVecXYZ scl),
    ("name", J.s nm)]

/-- `spawn_snowman_family`: the `random.uniform(0.8, 1.2)` draw is an
explicit argument `randDraw`, consulted only when `random_placement` is
true.  The spawn and the two duplication attempts of the `range(1, 3)`
loop are unrolled; each helper invocation is recorded as one `OpEvent`. -/
def spawn_snowman_family (env : Env) (tr : List Call)
    (base_x base_y base_z spread : Rat) (random_placement : Bool) (randDraw : Rat) :
    J × List Call × List OpEvent :=
  let f := if random_placement then spread * randDraw else spread
  let spacing_x : Rat := 350 * 1.5
  let spacing_y : Rat := 350 * 1.5
  let p0 : Vec3 := (base_x, base_y, base_z)
  let p1 : Vec3 := (base_x - spacing_x * f, base_y + spacing_y * 0.6 * f, base_z)
  let p2 : Vec3 := (base_x + spacing_x * 1.2 * f, base_y - spacing_y * 0.4 * f, base_z)
  let r0 := spawn_blueprint_actor env tr "/Game/Snowman_BP.Snowman_BP_C"
    p0 (0, 0, 0) (1.2, 1.2, 1.2) (some "Snowman_Center")
  match r0.1 with
  | Option.none =>
    (J.obj [("success", J.b false),
      ("error", J.s "Failed to spawn first snowman, cannot continue"),
      ("snowmen", J.arr [])], r0.2, [OpEvent.spawnAttempt])
  | some first =>
    let d1 := duplicate_snowman env r0.2 first p1 (0, 135, 0) (0.9, 0.9, 0.9)
      (some "Snowman_Left")
    let d2 := duplicate_snowman env d1.2 first p2 (0, -45, 0) (1.4, 1.4, 1.4)
      (some "Snowman_Right")
    let e0 := snowmanEntry first p0 (1.2, 1.2, 1.2) (0, 0, 0) "Snowman_Center"
    let e1 := match d1.1 with
      | some q => [snowmanEntry q p1 (0.9, 0.9, 0.9) (0, 135, 0) "Snowman_Left"]
      | Option.none => []
    let e2 := match d2.1 with
      | some q => [snowmanEntry q p2 (1.4, 1.4, 1.4) (0, -45, 0) "Snowman_Right"]
      | Option.none => []
    let entries := [e0] ++ e1 ++ e2
    (J.obj [("success", J.b true),
      ("standard_snowman_dimensions_cm", J.obj [("width", J.q 350), ("length", J.q 350)]),
      ("snowmen_count", J.q entries.length),
      ("snowmen", J.arr entries)], d2.2,
      [OpEvent.spawnAttempt, OpEvent.dupAttempt, OpEvent.dupAttempt])

/-- Number of `Duplicate` remote calls in a trace. -/
def dupCallCount (tr : List Call) : Nat :=
  (tr.filter (fun c => match c with | Call.duplicate _ _ _ _ => true | _ => false)).length

/-- C1: in `duplicate_snowman`, when the `Duplicate` call returns no
reference but the after-snapshot contains actors not in the
before-snapshot, the resolved (and returned) reference is the last such
new actor in the after-listing order, provided it is a non-empty string
and the corrective calls do not raise. -/
theorem C1_dup_diff_last
    (env : Env) (tr : List Call) (src : String) (loc rot scl : Vec3)
    (la lb : List String) (rv rL rR rS : RetVal) (p : String)
    (h1 : env (tr ++ [Call.getAllLevelActors]) = Resp.ok (RetVal.strList la))
    (h2 : env (tr ++ [Call.getAllLevelActors, Call.duplicate src TVariant.A loc scl]) =
      Resp.ok rv)
    (h2t : truthyOpt rv.asStrOpt = Option.none)
    (h3 : env (tr ++ [Call.getAllLevelActors, Call.duplicate src TVariant.A loc scl,
      Call.getAllLevelActors]) = Resp.ok (RetVal.strList lb))
    (h4 : (newActorsOf la lb).getLast? = some p)
    (h5 : p.isEmpty = false)
    (h6 : env (tr ++ [Call.getAllLevelActors, Call.duplicate src TVariant.A loc scl,
      Call.getAllLevelActors, Call.setActorLocation p loc]) = Resp.ok rL)
    (h7 : env (tr ++ [Call.getAllLevelActors, Call.duplicate src TVariant.A loc scl,
      Call.getAllLevelActors, Call.setActorLocation p loc,
      Call.setActorRotation p rot]) = Resp.ok rR)
    (h8 : env (tr ++ [Call.getAllLevelActors, Call.duplicate src TVariant.A loc scl,
      Call.getAllLevelActors, Call.setActorLocation p loc, Call.setActorRotation p rot,
      Call.setActorScale3D p scl]) = Resp.ok rS) :
    (duplicate_snowman env tr src loc rot scl Option.none).1 = some p := by
  simp only [duplicate_snowman, get_all_level_actors, dup_resolve, dup_corrections,
    List.append_assoc, List.cons_append, List.nil_append,
    h1, RetVal.asStrList, h2, h2t, h3, h4, h5, h6, h7, h8]
  simp [truthyOpt]

/-- C1 witness: before `[A]`, duplicate returns no value, after `[A, B]`:
the resolved reference is `B`. -/
def envC1 : Env := fun h =>
  match h with
  | [Call.getAllLevelActors] => Resp.ok (RetVal.strList ["A"])
  | [_, Call.duplicate _ _ _ _] => Resp.ok RetVal.none
  | [_, _, Call.getAllLevelActors] => Resp.ok (RetVal.strList ["A", "B"])
  | _ => Resp.ok RetVal.none

theorem C1_witness :
    (duplicate_snowman envC1 [] "A" (0, 0, 0) (0, 0, 0) (1, 1, 1) Option.none).1 =
      some "B" :=
  C1_dup_diff_last envC1 [] "A" (0, 0, 0) (0, 0, 0) (1, 1, 1) ["A"] ["A", "B"]
    RetVal.none RetVal.none RetVal.none RetVal.none "B"
    rfl rfl rfl rfl (by decide) rfl rfl rfl rfl

/-- C2: when variant A yields a falsy return value and none of the three
variant attempts produces an after-snapshot actor absent from the
before-snapshot, `duplicate_snowman` returns no reference (the
duplication-undetectable failure), never a fabricated one. -/
theorem C2_dup_undetectable
    (env : Env) (tr : List Call) (src : String) (loc rot scl : Vec3)
    (name : Option String) (la lb1 lb2 lb3 : List String) (rvA rvB rvC : RetVal)
    (h1 : env (tr ++ [Call.getAllLevelActors]) = Resp.ok (RetVal.strList la))
    (h2 : env (tr ++ [Call.getAllLevelActors, Call.duplicate src TVariant.A loc scl]) =
      Resp.ok rvA)
    (h2t : truthyOpt rvA.asStrOpt = Option.none)
    (h3 : env (tr ++ [Call.getAllLevelActors, Call.duplicate src TVariant.A loc scl,
      Call.getAllLevelActors]) = Resp.ok (RetVal.strList lb1))
    (h3d : newActorsOf la lb1 = [])
    (h4 : env (tr ++ [Call.getAllLevelActors, Call.duplicate src TVariant.A loc scl,
      Call.getAllLevelActors, Call.duplicate src TVariant.B loc scl]) = Resp.ok rvB)
    (h5 : env (tr ++ [Call.getAllLevelActors, Call.duplicate src TVariant.A loc scl,
      Call.getAllLevelActors, Call.duplicate src TVariant.B loc scl,
      Call.getAllLevelActors]) = Resp.ok (RetVal.strList lb2))
    (h5d : newActorsOf la lb2 = [])
    (h6 : env (tr ++ [Call.getAllLevelActors, Call.duplicate src TVariant.A loc scl,
      Call.getAllLevelActors, Call.duplicate src TVariant.B loc scl,
      Call.getAllLevelActors, Call.duplicate src TVariant.C loc scl]) = Resp.ok rvC)
    (h7 : env (tr ++ [Call.getAllLevelActors, Call.duplicate src TVariant.A loc scl,
      Call.getAllLevelActors, Call.duplicate src TVariant.B loc scl,
      Call.getAllLevelActors, Call.duplicate src TVariant.C loc scl,
      Call.getAllLevelActors]) = Resp.ok (RetVal.strList lb3))
    (h7d : newActorsOf la lb3 = []) :
    (duplicate_snowman env tr src loc rot scl name).1 = Option.none := by
  simp only [duplicate_snowman, get_all_level_actors, dup_resolve, dup_tryDiff,
    List.append_assoc, List.cons_append, List.nil_append, List.getLast?_nil,
    h1, RetVal.asStrList, h2, h2t, h3, h3d, h4, h5, h5d, h6, h7, h7d]

/-- C2 witness: the engine accepts every call but never creates an actor
and never echoes a reference; every listing stays `[A]`. -/
def envC2 : Env := fun _ => Resp.ok (RetVal.strList ["A"])

theorem C2_witness :
    (duplicate_snowman envC2 [] "A" (0, 0, 0) (0, 0, 0) (1, 1, 1) Option.none).1 =
      Option.none :=
  C2_dup_undetectable envC2 [] "A" (0, 0, 0) (0, 0, 0) (1, 1, 1) Option.none
    ["A"] ["A"] ["A"] ["A"] (RetVal.strList ["A"]) (RetVal.strList ["A"])
    (RetVal.strList ["A"]) rfl rfl rfl rfl (by decide) rfl rfl (by decide) rfl rfl
    (by decide)

/-- Run of `duplicate_snowman` in which variants A and B are unresolved
and variant C resolves through the snapshot diff: exactly one `Duplicate`
call per attempted variant, and the return values `rvB` and `rvC` of the
retried calls arbitrary and unread. -/
theorem dup_variantC_diff_run
    (env : Env) (tr : List Call) (src : String) (loc rot scl : Vec3)
    (la lb1 lb2 lb3 : List String) (rvA rvB rvC rL rR rS : RetVal) (p : String)
    (h1 : env (tr ++ [Call.getAllLevelActors]) = Resp.ok (RetVal.strList la))
    (h2 : env (tr ++ [Call.getAllLevelActors, Call.duplicate src TVariant.A loc scl]) =
      Resp.ok rvA)
    (h2t : truthyOpt rvA.asStrOpt = Option.none)
    (h3 : env (tr ++ [Call.getAllLevelActors, Call.duplicate src TVariant.A loc scl,
      Call.getAllLevelActors]) = Resp.ok (RetVal.strList lb1))
    (h3d : newActorsOf la lb1 = [])
    (h4 : env (tr ++ [Call.getAllLevelActors, Call.duplicate src TVariant.A loc scl,
      Call.getAllLevelActors, Call.duplicate src TVariant.B loc scl]) = Resp.ok rvB)
    (h5 : env (tr ++ [Call.getAllLevelActors, Call.duplicate src TVariant.A loc scl,
      Call.getAllLevelActors, Call.duplicate src TVariant.B loc scl,
      Call.getAllLevelActors]) = Resp.ok (RetVal.strList lb2))
    (h5d : newActorsOf la lb2 = [])
    (h6 : env (tr ++ [Call.getAllLevelActors, Call.duplicate src TVariant.A loc scl,
      Call.getAllLevelActors, Call.duplicate src TVariant.B loc scl,
      Call.getAllLevelActors, Call.duplicate src TVariant.C loc scl]) = Resp.ok rvC)
    (h7 : env (tr ++ [Call.getAllLevelActors, Call.duplicate src TVariant.A loc scl,
      Call.getAllLevelActors, Call.duplicate src TVariant.B loc scl,
      Call.getAllLevelActors, Call.duplicate src TVariant.C loc scl,
      Call.getAllLevelActors]) = Resp.ok (RetVal.strList lb3))
    (h7l : (newActorsOf la lb3).getLast? = some p)
    (h7e : p.isEmpty = false)
    (hL : env (tr ++ [Call.getAllLevelActors, Call.duplicate src TVariant.A loc scl,
      Call.getAllLevelActors, Call.duplicate src TVariant.B loc scl,
      Call.getAllLevelActors, Call.duplicate src TVariant.C loc scl,
      Call.getAllLevelActors, Call.setActorLocation p loc]) = Resp.ok rL)
    (hR : env (tr ++ [Call.getAllLevelActors, Call.duplicate src TVariant.A loc scl,
      Call.getAllLevelActors, Call.duplicate src TVariant.B loc scl,
      Call.getAllLevelActors, Call.duplicate src TVariant.C loc scl,
      Call.getAllLevelActors, Call.setActorLocation p loc,
      Call.setActorRotation p rot]) = Resp.ok rR)
    (hS : env (tr ++ [Call.getAllLevelActors, Call.duplicate src TVariant.A loc scl,
      Call.getAllLevelActors, Call.duplicate src TVariant.B loc scl,
      Call.getAllLevelActors, Call.duplicate src TVariant.C loc scl,
      Call.getAllLevelActors, Call.setActorLocation p loc, Call.setActorRotation p rot,
      Call.setActorScale3D p scl]) = Resp.ok rS) :
    duplicate_snowman env tr src loc rot scl Option.none =
      (some p, tr ++ [Call.getAllLevelActors, Call.duplicate src TVariant.A loc scl,
        Call.getAllLevelActors, Call.duplicate src TVariant.B loc scl,
        Call.getAllLevelActors, Call.duplicate src TVariant.C loc scl,
        Call.getAllLevelActors, Call.setActorLocation p loc, Call.setActorRotation p rot,
        Call.setActorScale3D p scl]) := by
  simp only [duplicate_snowman, get_all_level_actors, dup_resolve, dup_tryDiff,
    dup_corrections, List.append_assoc, List.cons_append, List.nil_append,
    List.getLast?_nil, h1, RetVal.asStrList, h2, h2t, h3, h3d, h4, h5, h5d, h6, h7,
    h7l, h7e, hL, hR, hS]
  simp [truthyOpt]

/-- C3 counterexample environment: variant A yields nothing, variant B
echoes the reference `NEW` in its return value, but no listing ever shows
a new actor. -/
def envC3 : Env := fun h =>
  match h with
  | [_, _, _, Call.duplicate _ TVariant.B _ _] => Resp.ok (RetVal.str "NEW")
  | _ =>
    match h.getLast? with
    | some Call.getAllLevelActors => Resp.ok (RetVal.strList [])
    | _ => Resp.ok RetVal.none

/-- C3 counterexample: the variant-B attempt returns the non-empty
reference `NEW`, yet `duplicate_snowman` resolves nothing and returns no
reference, because the retried attempts never read the return value.  The
claim says the retry repeats step 4a and would accept `NEW`. -/
theorem C3_counterexample :
    (duplicate_snowman envC3 [] "S" (0, 0, 0) (0, 0, 0) (1, 1, 1) Option.none).1 =
      Option.none ∧
    envC3 [Call.getAllLevelActors, Call.duplicate "S" TVariant.A (0, 0, 0) (1, 1, 1),
      Call.getAllLevelActors, Call.duplicate "S" TVariant.B (0, 0, 0) (1, 1, 1)] =
      Resp.ok (RetVal.str "NEW") :=
  ⟨rfl, rfl⟩

/-- Run of `duplicate_snowman` in which variant A is unresolved and
variant B resolves through the snapshot diff: exactly one `Duplicate`
call per attempted variant, variant C never attempted, and the return
value `rvB` of the variant-B call arbitrary and unread. -/
theorem dup_variantB_diff_run
    (env : Env) (tr : List Call) (src : String) (loc rot scl : Vec3)
    (la lb1 lb2 : List String) (rvA rvB rL rR rS : RetVal) (p : String)
    (h1 : env (tr ++ [Call.getAllLevelActors]) = Resp.ok (RetVal.strList la))
    (h2 : env (tr ++ [Call.getAllLevelActors, Call.duplicate src TVariant.A loc scl]) =
      Resp.ok rvA)
    (h2t : truthyOpt rvA.asStrOpt = Option.none)
    (h3 : env (tr ++ [Call.getAllLevelActors, Call.duplicate src TVariant.A loc scl,
      Call.getAllLevelActors]) = Resp.ok (RetVal.strList lb1))
    (h3d : newActorsOf la lb1 = [])
    (h4 : env (tr ++ [Call.getAllLevelActors, Call.duplicate src TVariant.A loc scl,
      Call.getAllLevelActors, Call.duplicate src TVariant.B loc scl]) = Resp.ok rvB)
    (h5 : env (tr ++ [Call.getAllLevelActors, Call.duplicate src TVariant.A loc scl,
      Call.getAllLevelActors, Call.duplicate src TVariant.B loc scl,
      Call.getAllLevelActors]) = Resp.ok (RetVal.strList lb2))
    (h5l : (newActorsOf la lb2).getLast? = some p)
    (h5e : p.isEmpty = false)
    (h6 : env (tr ++ [Call.getAllLevelActors, Call.duplicate src TVariant.A loc scl,
      Call.getAllLevelActors, Call.duplicate src TVariant.B loc scl,
      Call.getAllLevelActors, Call.setActorLocation p loc]) = Resp.ok rL)
    (h7 : env (tr ++ [Call.getAllLevelActors, Call.duplicate src TVariant.A loc scl,
      Call.getAllLevelActors, Call.duplicate src TVariant.B loc scl,
      Call.getAllLevelActors, Call.setActorLocation p loc,
      Call.setActorRotation p rot]) = Resp.ok rR)
    (h8 : env (tr ++ [Call.getAllLevelActors, Call.duplicate src TVariant.A loc scl,
      Call.getAllLevelActors, Call.duplicate src TVariant.B loc scl,
      Call.getAllLevelActors, Call.setActorLocation p loc, Call.setActorRotation p rot,
      Call.setActorScale3D p scl]) = Resp.ok rS) :
    duplicate_snowman env tr src loc rot scl Option.none =
      (some p, tr ++ [Call.getAllLevelActors, Call.duplicate src TVariant.A loc scl,
        Call.getAllLevelActors, Call.duplicate src TVariant.B loc scl,
        Call.getAllLevelActors, Call.setActorLocation p loc, Call.setActorRotation p rot,
        Call.setActorScale3D p scl]) := by
  simp only [duplicate_snowman, get_all_level_actors, dup_resolve, dup_tryDiff,
    dup_corrections, List.append_assoc, List.cons_append, List.nil_append,
    List.getLast?_nil, h1, RetVal.asStrList, h2, h2t, h3, h3d, h4, h5, h5l, h5e,
    h6, h7, h8]
  simp [truthyOpt]

/-- Run of `duplicate_snowman` in which variant A resolves the reference
through its own return value: no snapshot diff and no further `Duplicate`
call. -/
theorem dup_variantA_return_run
    (env : Env) (tr : List Call) (src : String) (loc rot scl : Vec3)
    (la : List String) (rvA rL rR rS : RetVal) (p : String)
    (h1 : env (tr ++ [Call.getAllLevelActors]) = Resp.ok (RetVal.strList la))
    (h2 : env (tr ++ [Call.getAllLevelActors, Call.duplicate src TVariant.A loc scl]) =
      Resp.ok rvA)
    (h2t : truthyOpt rvA.asStrOpt = some p)
    (h2e : p.isEmpty = false)
    (h6 : env (tr ++ [Call.getAllLevelActors, Call.duplicate src TVariant.A loc scl,
      Call.setActorLocation p loc]) = Resp.ok rL)
    (h7 : env (tr ++ [Call.getAllLevelActors, Call.duplicate src TVariant.A loc scl,
      Call.setActorLocation p loc, Call.setActorRotation p rot]) = Resp.ok rR)
    (h8 : env (tr ++ [Call.getAllLevelActors, Call.duplicate src TVariant.A loc scl,
      Call.setActorLocation p loc, Call.setActorRotation p rot,
      Call.setActorScale3D p scl]) = Resp.ok rS) :
    duplicate_snowman env tr src loc rot scl Option.none =
      (some p, tr ++ [Call.getAllLevelActors, Call.duplicate src TVariant.A loc scl,
        Call.setActorLocation p loc, Call.setActorRotation p rot,
        Call.setActorScale3D p scl]) := by
  simp only [duplicate_snowman, get_all_level_actors, dup_resolve, dup_corrections,
    List.append_assoc, List.cons_append, List.nil_append,
    h1, RetVal.asStrList, h2, h2t, h2e, h6, h7, h8]
  simp [truthyOpt]

set_option maxHeartbeats 2000000 in
/-- C3 amended: a variant is attempted only if the previous attempt
resolved no reference and each attempted variant issues exactly one
`Duplicate` remote call, but the retried attempts resolve only through
the snapshot diff: whatever return value the variant-B call produces is
not consulted.  First part: variant A unresolved, variant B resolves via
the diff (its return value `rvB` arbitrary), variant C never attempted.
Second part: variant A resolves through its own return value and no
further `Duplicate` call is issued.  Third part: variants A and B
unresolved, variant C attempted with exactly one `Duplicate` call and
resolving via the diff alone, its return value `rvC` arbitrary and
unread. -/
theorem C3_amended :
    (∀ (env : Env) (tr : List Call) (src : String) (loc rot scl : Vec3)
      (la lb1 lb2 : List String) (rvA rvB rL rR rS : RetVal) (p : String),
      env (tr ++ [Call.getAllLevelActors]) = Resp.ok (RetVal.strList la) →
      env (tr ++ [Call.getAllLevelActors, Call.duplicate src TVariant.A loc scl]) =
        Resp.ok rvA →
      truthyOpt rvA.asStrOpt = Option.none →
      env (tr ++ [Call.getAllLevelActors, Call.duplicate src TVariant.A loc scl,
        Call.getAllLevelActors]) = Resp.ok (RetVal.strList lb1) →
      newActorsOf la lb1 = [] →
      env (tr ++ [Call.getAllLevelActors, Call.duplicate src TVariant.A loc scl,
        Call.getAllLevelActors, Call.duplicate src TVariant.B loc scl]) = Resp.ok rvB →
      env (tr ++ [Call.getAllLevelActors, Call.duplicate src TVariant.A loc scl,
        Call.getAllLevelActors, Call.duplicate src TVariant.B loc scl,
        Call.getAllLevelActors]) = Resp.ok (RetVal.strList lb2) →
      (newActorsOf la lb2).getLast? = some p →
      p.isEmpty = false →
      env (tr ++ [Call.getAllLevelActors, Call.duplicate src TVariant.A loc scl,
        Call.getAllLevelActors, Call.duplicate src TVariant.B loc scl,
        Call.getAllLevelActors, Call.setActorLocation p loc]) = Resp.ok rL →
      env (tr ++ [Call.getAllLevelActors, Call.duplicate src TVariant.A loc scl,
        Call.getAllLevelActors, Call.duplicate src TVariant.B loc scl,
        Call.getAllLevelActors, Call.setActorLocation p loc,
        Call.setActorRotation p rot]) = Resp.ok rR →
      env (tr ++ [Call.getAllLevelActors, Call.duplicate src TVariant.A loc scl,
        Call.getAllLevelActors, Call.duplicate src TVariant.B loc scl,
        Call.getAllLevelActors, Call.setActorLocation p loc, Call.setActorRotation p rot,
        Call.setActorScale3D p scl]) = Resp.ok rS →
      duplicate_snowman env tr src loc rot scl Option.none =
        (some p, tr ++ [Call.getAllLevelActors, Call.duplicate src TVariant.A loc scl,
          Call.getAllLevelActors, Call.duplicate src TVariant.B loc scl,
          Call.getAllLevelActors, Call.setActorLocation p loc, Call.setActorRotation p rot,
          Call.setActorScale3D p scl])) ∧
    (∀ (env : Env) (tr : List Call) (src : String) (loc rot scl : Vec3)
      (la : List String) (rvA rL rR rS : RetVal) (p : String),
      env (tr ++ [Call.getAllLevelActors]) = Resp.ok (RetVal.strList la) →
      env (tr ++ [Call.getAllLevelActors, Call.duplicate src TVariant.A loc scl]) =
        Resp.ok rvA →
      truthyOpt rvA.asStrOpt = some p →
      p.isEmpty = false →
      env (tr ++ [Call.getAllLevelActors, Call.duplicate src TVariant.A loc scl,
        Call.setActorLocation p loc]) = Resp.ok rL →
      env (tr ++ [Call.getAllLevelActors, Call.duplicate src TVariant.A loc scl,
        Call.setActorLocation p loc, Call.setActorRotation p rot]) = Resp.ok rR →
      env (tr ++ [Call.getAllLevelActors, Call.duplicate src TVariant.A loc scl,
        Call.setActorLocation p loc, Call.setActorRotation p rot,
        Call.setActorScale3D p scl]) = Resp.ok rS →
      duplicate_snowman env tr src loc rot scl Option.none =
        (some p, tr ++ [Call.getAllLevelActors, Call.duplicate src TVariant.A loc scl,
          Call.setActorLocation p loc, Call.setActorRotation p rot,
          Call.setActorScale3D p scl])) ∧
    (∀ (env : Env) (tr : List Call) (src : String) (loc rot scl : Vec3)
      (la lb1 lb2 lb3 : List String) (rvA rvB rvC rL rR rS : RetVal) (p : String),
      env (tr ++ [Call.getAllLevelActors]) = Resp.ok (RetVal.strList la) →
      env (tr ++ [Call.getAllLevelActors, Call.duplicate src TVariant.A loc scl]) =
        Resp.ok rvA →
      truthyOpt rvA.asStrOpt = Option.none →
      env (tr ++ [Call.getAllLevelActors, Call.duplicate src TVariant.A loc scl,
        Call.getAllLevelActors]) = Resp.ok (RetVal.strList lb1) →
      newActorsOf la lb1 = [] →
      env (tr ++ [Call.getAllLevelActors, Call.duplicate src TVariant.A loc scl,
        Call.getAllLevelActors, Call.duplicate src TVariant.B loc scl]) = Resp.ok rvB →
      env (tr ++ [Call.getAllLevelActors, Call.duplicate src TVariant.A loc scl,
        Call.getAllLevelActors, Call.duplicate src TVariant.B loc scl,
        Call.getAllLevelActors]) = Resp.ok (RetVal.strList lb2) →
      newActorsOf la lb2 = [] →
      env (tr ++ [Call.getAllLevelActors, Call.duplicate src TVariant.A loc scl,
        Call.getAllLevelActors, Call.duplicate src TVariant.B loc scl,
        Call.getAllLevelActors, Call.duplicate src TVariant.C loc scl]) = Resp.ok rvC →
      env (tr ++ [Call.getAllLevelActors, Call.duplicate src TVariant.A loc scl,
        Call.getAllLevelActors, Call.duplicate src TVariant.B loc scl,
        Call.getAllLevelActors, Call.duplicate src TVariant.C loc scl,
        Call.getAllLevelActors]) = Resp.ok (RetVal.strList lb3) →
      (newActorsOf la lb3).getLast? = some p →
      p.isEmpty = false →
      env (tr ++ [Call.getAllLevelActors, Call.duplicate src TVariant.A loc scl,
        Call.getAllLevelActors, Call.duplicate src TVariant.B loc scl,
        Call.getAllLevelActors, Call.duplicate src TVariant.C loc scl,
        Call.getAllLevelActors, Call.setActorLocation p loc]) = Resp.ok rL →
      env (tr ++ [Call.getAllLevelActors, Call.duplicate src TVariant.A loc scl,
        Call.getAllLevelActors, Call.duplicate src TVariant.B loc scl,
        Call.getAllLevelActors, Call.duplicate src TVariant.C loc scl,
        Call.getAllLevelActors, Call.setActorLocation p loc,
        Call.setActorRotation p rot]) = Resp.ok rR →
      env (tr ++ [Call.getAllLevelActors, Call.duplicate src TVariant.A loc scl,
        Call.getAllLevelActors, Call.duplicate src TVariant.B loc scl,
        Call.getAllLevelActors, Call.duplicate src TVariant.C loc scl,
        Call.getAllLevelActors, Call.setActorLocation p loc, Call.setActorRotation p rot,
        Call.setActorScale3D p scl]) = Resp.ok rS →
      duplicate_snowman env tr src loc rot scl Option.none =
        (some p, tr ++ [Call.getAllLevelActors, Call.duplicate src TVariant.A loc scl,
          Call.getAllLevelActors, Call.duplicate src TVariant.B loc scl,
          Call.getAllLevelActors, Call.duplicate src TVariant.C loc scl,
          Call.getAllLevelActors, Call.setActorLocation p loc, Call.setActorRotation p rot,
          Call.setActorScale3D p scl])) :=
  ⟨dup_variantB_diff_run, dup_variantA_return_run, dup_variantC_diff_run⟩

/-- C3 amended witness environment for the first part: variant B creates
actor `B`, detected only through the diff while its return value is the
unrelated string `IGNORED`. -/
def envC3B : Env := fun h =>
  match h.length with
  | 1 => Resp.ok (RetVal.strList [])
  | 2 => Resp.ok RetVal.none
  | 3 => Resp.ok (RetVal.strList [])
  | 4 => Resp.ok (RetVal.str "IGNORED")
  | 5 => Resp.ok (RetVal.strList ["B"])
  | _ => Resp.ok RetVal.none

/-- C3 amended witness environment for the second part: variant A echoes
the new reference directly. -/
def envC3A : Env := fun h =>
  match h.length with
  | 2 => Resp.ok (RetVal.str "NEW")
  | _ => Resp.ok (RetVal.strList [])

/-- C3 amended witness environment for the third part: variants A and B
create nothing, variant C creates actor `C` detected only through the
diff while the retried return values are non-empty strings the code
never reads. -/
def envC3C : Env := fun h =>
  match h.length with
  | 1 => Resp.ok (RetVal.strList [])
  | 2 => Resp.ok RetVal.none
  | 3 => Resp.ok (RetVal.strList [])
  | 4 => Resp.ok (RetVal.str "XYZ")
  | 5 => Resp.ok (RetVal.strList [])
  | 6 => Resp.ok (RetVal.str "ALSO")
  | 7 => Resp.ok (RetVal.strList ["C"])
  | _ => Resp.ok RetVal.none

theorem C3_amended_witness :
    duplicate_snowman envC3B [] "S" (0, 0, 0) (0, 0, 0) (1, 1, 1) Option.none =
      (some "B", [Call.getAllLevelActors, Call.duplicate "S" TVariant.A (0, 0, 0) (1, 1, 1),
        Call.getAllLevelActors, Call.duplicate "S" TVariant.B (0, 0, 0) (1, 1, 1),
        Call.getAllLevelActors, Call.setActorLocation "B" (0, 0, 0),
        Call.setActorRotation "B" (0, 0, 0), Call.setActorScale3D "B" (1, 1, 1)]) ∧
    duplicate_snowman envC3A [] "S" (0, 0, 0) (0, 0, 0) (1, 1, 1) Option.none =
      (some "NEW", [Call.getAllLevelActors, Call.duplicate "S" TVariant.A (0, 0, 0) (1, 1, 1),
        Call.setActorLocation "NEW" (0, 0, 0), Call.setActorRotation "NEW" (0, 0, 0),
        Call.setActorScale3D "NEW" (1, 1, 1)]) ∧
    duplicate_snowman envC3C [] "S" (0, 0, 0) (0, 0, 0) (1, 1, 1) Option.none =
      (some "C", [Call.getAllLevelActors, Call.duplicate "S" TVariant.A (0, 0, 0) (1, 1, 1),
        Call.getAllLevelActors, Call.duplicate "S" TVariant.B (0, 0, 0) (1, 1, 1),
        Call.getAllLevelActors, Call.duplicate "S" TVariant.C (0, 0, 0) (1, 1, 1),
        Call.getAllLevelActors, Call.setActorLocation "C" (0, 0, 0),
        Call.setActorRotation "C" (0, 0, 0), Call.setActorScale3D "C" (1, 1, 1)]) :=
  ⟨C3_amended.1 envC3B [] "S" (0, 0, 0) (0, 0, 0) (1, 1, 1) [] [] ["B"]
      RetVal.none (RetVal.str "IGNORED") RetVal.none RetVal.none RetVal.none "B"
      rfl rfl rfl rfl (by decide) rfl rfl (by decide) rfl rfl rfl rfl,
    C3_amended.2.1 envC3A [] "S" (0, 0, 0) (0, 0, 0) (1, 1, 1) []
      (RetVal.str "NEW") (RetVal.strList []) (RetVal.strList []) (RetVal.strList [])
      "NEW" rfl rfl rfl rfl rfl rfl rfl,
    C3_amended.2.2 envC3C [] "S" (0, 0, 0) (0, 0, 0) (1, 1, 1) [] [] [] ["C"]
      RetVal.none (RetVal.str "XYZ") (RetVal.str "ALSO") RetVal.none RetVal.none
      RetVal.none "C" rfl rfl rfl rfl (by decide) rfl rfl (by decide) rfl rfl
      (by decide) rfl rfl rfl rfl⟩

/-- Run of `duplicate_snowman` in which a reference is resolved through
the variant-A return value but the first corrective call raises a
transport error: the enclosing exception handler returns `None`. -/
theorem dup_corrections_error_run
    (env : Env) (tr : List Call) (src : String) (loc rot scl : Vec3)
    (la : List String) (rvA : RetVal) (p m : String)
    (h1 : env (tr ++ [Call.getAllLevelActors]) = Resp.ok (RetVal.strList la))
    (h2 : env (tr ++ [Call.getAllLevelActors, Call.duplicate src TVariant.A loc scl]) =
      Resp.ok rvA)
    (h2t : truthyOpt rvA.asStrOpt = some p)
    (h2e : p.isEmpty = false)
    (h6 : env (tr ++ [Call.getAllLevelActors, Call.duplicate src TVariant.A loc scl,
      Call.setActorLocation p loc]) = Resp.error m) :
    duplicate_snowman env tr src loc rot scl Option.none =
      (Option.none, tr ++ [Call.getAllLevelActors, Call.duplicate src TVariant.A loc scl,
        Call.setActorLocation p loc]) := by
  simp only [duplicate_snowman, get_all_level_actors, dup_resolve, dup_corrections,
    List.append_assoc, List.cons_append, List.nil_append,
    h1, RetVal.asStrList, h2, h2t, h2e, h6]
  simp

/-- Run of `duplicate_snowman` in which the reference is resolved, the
set-location call succeeds, and the set-rotation corrective call raises:
the enclosing exception handler returns `None`. -/
theorem dup_rotation_error_run
    (env : Env) (tr : List Call) (src : String) (loc rot scl : Vec3)
    (la : List String) (rvA rL : RetVal) (p m : String)
    (h1 : env (tr ++ [Call.getAllLevelActors]) = Resp.ok (RetVal.strList la))
    (h2 : env (tr ++ [Call.getAllLevelActors, Call.duplicate src TVariant.A loc scl]) =
      Resp.ok rvA)
    (h2t : truthyOpt rvA.asStrOpt = some p)
    (h2e : p.isEmpty = false)
    (hL : env (tr ++ [Call.getAllLevelActors, Call.duplicate src TVariant.A loc scl,
      Call.setActorLocation p loc]) = Resp.ok rL)
    (hR : env (tr ++ [Call.getAllLevelActors, Call.duplicate src TVariant.A loc scl,
      Call.setActorLocation p loc, Call.setActorRotation p rot]) = Resp.error m) :
    duplicate_snowman env tr src loc rot scl Option.none =
      (Option.none, tr ++ [Call.getAllLevelActors,
        Call.duplicate src TVariant.A loc scl, Call.setActorLocation p loc,
        Call.setActorRotation p rot]) := by
  simp only [duplicate_snowman, get_all_level_actors, dup_resolve, dup_corrections,
    List.append_assoc, List.cons_append, List.nil_append,
    h1, RetVal.asStrList, h2, h2t, h2e, hL, hR]
  simp

/-- Run of `duplicate_snowman` in which the reference is resolved, the
set-location and set-rotation calls succeed, and the set-scale corrective
call raises: the enclosing exception handler returns `None`. -/
theorem dup_scale_error_run
    (env : Env) (tr : List Call) (src : String) (loc rot scl : Vec3)
    (la : List String) (rvA rL rR : RetVal) (p m : String)
    (h1 : env (tr ++ [Call.getAllLevelActors]) = Resp.ok (RetVal.strList la))
    (h2 : env (tr ++ [Call.getAllLevelActors, Call.duplicate src TVariant.A loc scl]) =
      Resp.ok rvA)
    (h2t : truthyOpt rvA.asStrOpt = some p)
    (h2e : p.isEmpty = false)
    (hL : env (tr ++ [Call.getAllLevelActors, Call.duplicate src TVariant.A loc scl,
      Call.setActorLocation p loc]) = Resp.ok rL)
    (hR : env (tr ++ [Call.getAllLevelActors, Call.duplicate src TVariant.A loc scl,
      Call.setActorLocation p loc, Call.setActorRotation p rot]) = Resp.ok rR)
    (hS : env (tr ++ [Call.getAllLevelActors, Call.duplicate src TVariant.A loc scl,
      Call.setActorLocation p loc, Call.setActorRotation p rot,
      Call.setActorScale3D p scl]) = Resp.error m) :
    duplicate_snowman env tr src loc rot scl Option.none =
      (Option.none, tr ++ [Call.getAllLevelActors,
        Call.duplicate src TVariant.A loc scl, Call.setActorLocation p loc,
        Call.setActorRotation p rot, Call.setActorScale3D p scl]) := by
  simp only [duplicate_snowman, get_all_level_actors, dup_resolve, dup_corrections,
    List.append_assoc, List.cons_append, List.nil_append,
    h1, RetVal.asStrList, h2, h2t, h2e, hL, hR, hS]
  simp

/-- Run of `duplicate_snowman` with a truthy requested label in which the
reference is resolved, the three pose corrections succeed, and the
set-label call raises: the enclosing exception handler returns `None`. -/
theorem dup_label_error_run
    (env : Env) (tr : List Call) (src : String) (loc rot scl : Vec3)
    (la : List String) (rvA rL rR rS : RetVal) (p n m : String)
    (h1 : env (tr ++ [Call.getAllLevelActors]) = Resp.ok (RetVal.strList la))
    (h2 : env (tr ++ [Call.getAllLevelActors, Call.duplicate src TVariant.A loc scl]) =
      Resp.ok rvA)
    (h2t : truthyOpt rvA.asStrOpt = some p)
    (h2e : p.isEmpty = false)
    (hn : n.isEmpty = false)
    (hL : env (tr ++ [Call.getAllLevelActors, Call.duplicate src TVariant.A loc scl,
      Call.setActorLocation p loc]) = Resp.ok rL)
    (hR : env (tr ++ [Call.getAllLevelActors, Call.duplicate src TVariant.A loc scl,
      Call.setActorLocation p loc, Call.setActorRotation p rot]) = Resp.ok rR)
    (hS : env (tr ++ [Call.getAllLevelActors, Call.duplicate src TVariant.A loc scl,
      Call.setActorLocation p loc, Call.setActorRotation p rot,
      Call.setActorScale3D p scl]) = Resp.ok rS)
    (hLab : env (tr ++ [Call.getAllLevelActors, Call.duplicate src TVariant.A loc scl,
      Call.setActorLocation p loc, Call.setActorRotation p rot,
      Call.setActorScale3D p scl, Call.setActorLabel p n]) = Resp.error m) :
    duplicate_snowman env tr src loc rot scl (some n) =
      (Option.none, tr ++ [Call.getAllLevelActors,
        Call.duplicate src TVariant.A loc scl, Call.setActorLocation p loc,
        Call.setActorRotation p rot, Call.setActorScale3D p scl,
        Call.setActorLabel p n]) := by
  simp only [duplicate_snowman, get_all_level_actors, dup_resolve, dup_corrections,
    List.append_assoc, List.cons_append, List.nil_append,
    h1, RetVal.asStrList, h2, h2t, h2e, hL, hR, hS, hLab]
  simp [truthyOpt, hn, hLab]

/-- C4 counterexample environment: the duplicate call echoes reference
`B`, then the set-location corrective call raises. -/
def envC4 : Env := fun h =>
  match h.length with
  | 1 => Resp.ok (RetVal.strList [])
  | 2 => Resp.ok (RetVal.str "B")
  | _ => Resp.error "timeout"

/-- C4 counterexample: the reference `B` is resolved (the duplicate call
returned it), yet the failing set-location call makes `duplicate_snowman`
return no reference, contradicting the claim that post-correction
failures do not fail the overall operation. -/
theorem C4_counterexample :
    (duplicate_snowman envC4 [] "S" (0, 0, 0) (0, 0, 0) (1, 1, 1) Option.none).1 =
      Option.none ∧
    envC4 [Call.getAllLevelActors, Call.duplicate "S" TVariant.A (0, 0, 0) (1, 1, 1)] =
      Resp.ok (RetVal.str "B") :=
  ⟨rfl, rfl⟩

/-- C4 amended: once a reference is resolved, a raised transport failure
in any post-correction call is caught by the enclosing handler and the
whole operation returns no reference: the first four parts cover a
failing set-location, set-rotation, set-scale and set-label call in
turn; only when every issued corrective call succeeds does
`duplicate_snowman` return the resolved reference (last part). -/
theorem C4_amended :
    (∀ (env : Env) (tr : List Call) (src : String) (loc rot scl : Vec3)
      (la : List String) (rvA : RetVal) (p m : String),
      env (tr ++ [Call.getAllLevelActors]) = Resp.ok (RetVal.strList la) →
      env (tr ++ [Call.getAllLevelActors, Call.duplicate src TVariant.A loc scl]) =
        Resp.ok rvA →
      truthyOpt rvA.asStrOpt = some p →
      p.isEmpty = false →
      env (tr ++ [Call.getAllLevelActors, Call.duplicate src TVariant.A loc scl,
        Call.setActorLocation p loc]) = Resp.error m →
      duplicate_snowman env tr src loc rot scl Option.none =
        (Option.none, tr ++ [Call.getAllLevelActors,
          Call.duplicate src TVariant.A loc scl, Call.setActorLocation p loc])) ∧
    (∀ (env : Env) (tr : List Call) (src : String) (loc rot scl : Vec3)
      (la : List String) (rvA rL : RetVal) (p m : String),
      env (tr ++ [Call.getAllLevelActors]) = Resp.ok (RetVal.strList la) →
      env (tr ++ [Call.getAllLevelActors, Call.duplicate src TVariant.A loc scl]) =
        Resp.ok rvA →
      truthyOpt rvA.asStrOpt = some p →
      p.isEmpty = false →
      env (tr ++ [Call.getAllLevelActors, Call.duplicate src TVariant.A loc scl,
        Call.setActorLocation p loc]) = Resp.ok rL →
      env (tr ++ [Call.getAllLevelActors, Call.duplicate src TVariant.A loc scl,
        Call.setActorLocation p loc, Call.setActorRotation p rot]) = Resp.error m →
      duplicate_snowman env tr src loc rot scl Option.none =
        (Option.none, tr ++ [Call.getAllLevelActors,
          Call.duplicate src TVariant.A loc scl, Call.setActorLocation p loc,
          Call.setActorRotation p rot])) ∧
    (∀ (env : Env) (tr : List Call) (src : String) (loc rot scl : Vec3)
      (la : List String) (rvA rL rR : RetVal) (p m : String),
      env (tr ++ [Call.getAllLevelActors]) = Resp.ok (RetVal.strList la) →
      env (tr ++ [Call.getAllLevelActors, Call.duplicate src TVariant.A loc scl]) =
        Resp.ok rvA →
      truthyOpt rvA.asStrOpt = some p →
      p.isEmpty = false →
      env (tr ++ [Call.getAllLevelActors, Call.duplicate src TVariant.A loc scl,
        Call.setActorLocation p loc]) = Resp.ok rL →
      env (tr ++ [Call.getAllLevelActors, Call.duplicate src TVariant.A loc scl,
        Call.setActorLocation p loc, Call.setActorRotation p rot]) = Resp.ok rR →
      env (tr ++ [Call.getAllLevelActors, Call.duplicate src TVariant.A loc scl,
        Call.setActorLocation p loc, Call.setActorRotation p rot,
        Call.setActorScale3D p scl]) = Resp.error m →
      duplicate_snowman env tr src loc rot scl Option.none =
        (Option.none, tr ++ [Call.getAllLevelActors,
          Call.duplicate src TVariant.A loc scl, Call.setActorLocation p loc,
          Call.setActorRotation p rot, Call.setActorScale3D p scl])) ∧
    (∀ (env : Env) (tr : List Call) (src : String) (loc rot scl : Vec3)
      (la : List String) (rvA rL rR rS : RetVal) (p n m : String),
      env (tr ++ [Call.getAllLevelActors]) = Resp.ok (RetVal.strList la) →
      env (tr ++ [Call.getAllLevelActors, Call.duplicate src TVariant.A loc scl]) =
        Resp.ok rvA →
      truthyOpt rvA.asStrOpt = some p →
      p.isEmpty = false →
      n.isEmpty = false →
      env (tr ++ [Call.getAllLevelActors, Call.duplicate src TVariant.A loc scl,
        Call.setActorLocation p loc]) = Resp.ok rL →
      env (tr ++ [Call.getAllLevelActors, Call.duplicate src TVariant.A loc scl,
        Call.setActorLocation p loc, Call.setActorRotation p rot]) = Resp.ok rR →
      env (tr ++ [Call.getAllLevelActors, Call.duplicate src TVariant.A loc scl,
        Call.setActorLocation p loc, Call.setActorRotation p rot,
        Call.setActorScale3D p scl]) = Resp.ok rS →
      env (tr ++ [Call.getAllLevelActors, Call.duplicate src TVariant.A loc scl,
        Call.setActorLocation p loc, Call.setActorRotation p rot,
        Call.setActorScale3D p scl, Call.setActorLabel p n]) = Resp.error m →
      duplicate_snowman env tr src loc rot scl (some n) =
        (Option.none, tr ++ [Call.getAllLevelActors,
          Call.duplicate src TVariant.A loc scl, Call.setActorLocation p loc,
          Call.setActorRotation p rot, Call.setActorScale3D p scl,
          Call.setActorLabel p n])) ∧
    (∀ (env : Env) (tr : List Call) (src : String) (loc rot scl : Vec3)
      (la : List String) (rvA rL rR rS : RetVal) (p : String),
      env (tr ++ [Call.getAllLevelActors]) = Resp.ok (RetVal.strList la) →
      env (tr ++ [Call.getAllLevelActors, Call.duplicate src TVariant.A loc scl]) =
        Resp.ok rvA →
      truthyOpt rvA.asStrOpt = some p →
      p.isEmpty = false →
      env (tr ++ [Call.getAllLevelActors, Call.duplicate src TVariant.A loc scl,
        Call.setActorLocation p loc]) = Resp.ok rL →
      env (tr ++ [Call.getAllLevelActors, Call.duplicate src TVariant.A loc scl,
        Call.setActorLocation p loc, Call.setActorRotation p rot]) = Resp.ok rR →
      env (tr ++ [Call.getAllLevelActors, Call.duplicate src TVariant.A loc scl,
        Call.setActorLocation p loc, Call.setActorRotation p rot,
        Call.setActorScale3D p scl]) = Resp.ok rS →
      duplicate_snowman env tr src loc rot scl Option.none =
        (some p, tr ++ [Call.getAllLevelActors, Call.duplicate src TVariant.A loc scl,
          Call.setActorLocation p loc, Call.setActorRotation p rot,
          Call.setActorScale3D p scl])) :=
  ⟨dup_corrections_error_run, dup_rotation_error_run, dup_scale_error_run,
    dup_label_error_run, dup_variantA_return_run⟩

/-- C4 amended witness environment for the failing set-rotation part. -/
def envC4rot : Env := fun h =>
  match h.length with
  | 1 => Resp.ok (RetVal.strList [])
  | 2 => Resp.ok (RetVal.str "B")
  | 3 => Resp.ok RetVal.none
  | _ => Resp.error "timeout"

/-- C4 amended witness environment for the failing set-scale part. -/
def envC4scl : Env := fun h =>
  match h.length with
  | 1 => Resp.ok (RetVal.strList [])
  | 2 => Resp.ok (RetVal.str "B")
  | 3 => Resp.ok RetVal.none
  | 4 => Resp.ok RetVal.none
  | _ => Resp.error "timeout"

/-- C4 amended witness environment for the failing set-label part. -/
def envC4lab : Env := fun h =>
  match h.length with
  | 1 => Resp.ok (RetVal.strList [])
  | 2 => Resp.ok (RetVal.str "B")
  | 6 => Resp.error "timeout"
  | _ => Resp.ok RetVal.none

/-- C4 amended witness environment for the all-corrections-succeed
part. -/
def envC4ok : Env := fun h =>
  match h.length with
  | 1 => Resp.ok (RetVal.strList [])
  | 2 => Resp.ok (RetVal.str "B")
  | _ => Resp.ok RetVal.none

theorem C4_amended_witness :
    duplicate_snowman envC4 [] "S" (0, 0, 0) (0, 0, 0) (1, 1, 1) Option.none =
      (Option.none, [Call.getAllLevelActors,
        Call.duplicate "S" TVariant.A (0, 0, 0) (1, 1, 1),
        Call.setActorLocation "B" (0, 0, 0)]) ∧
    duplicate_snowman envC4rot [] "S" (0, 0, 0) (0, 0, 0) (1, 1, 1) Option.none =
      (Option.none, [Call.getAllLevelActors,
        Call.duplicate "S" TVariant.A (0, 0, 0) (1, 1, 1),
        Call.setActorLocation "B" (0, 0, 0), Call.setActorRotation "B" (0, 0, 0)]) ∧
    duplicate_snowman envC4scl [] "S" (0, 0, 0) (0, 0, 0) (1, 1, 1) Option.none =
      (Option.none, [Call.getAllLevelActors,
        Call.duplicate "S" TVariant.A (0, 0, 0) (1, 1, 1),
        Call.setActorLocation "B" (0, 0, 0), Call.setActorRotation "B" (0, 0, 0),
        Call.setActorScale3D "B" (1, 1, 1)]) ∧
    duplicate_snowman envC4lab [] "S" (0, 0, 0) (0, 0, 0) (1, 1, 1) (some "N") =
      (Option.none, [Call.getAllLevelActors,
        Call.duplicate "S" TVariant.A (0, 0, 0) (1, 1, 1),
        Call.setActorLocation "B" (0, 0, 0), Call.setActorRotation "B" (0, 0, 0),
        Call.setActorScale3D "B" (1, 1, 1), Call.setActorLabel "B" "N"]) ∧
    duplicate_snowman envC4ok [] "S" (0, 0, 0) (0, 0, 0) (1, 1, 1) Option.none =
      (some "B", [Call.getAllLevelActors,
        Call.duplicate "S" TVariant.A (0, 0, 0) (1, 1, 1),
        Call.setActorLocation "B" (0, 0, 0), Call.setActorRotation "B" (0, 0, 0),
        Call.setActorScale3D "B" (1, 1, 1)]) :=
  ⟨C4_amended.1 envC4 [] "S" (0, 0, 0) (0, 0, 0) (1, 1, 1) [] (RetVal.str "B")
      "B" "timeout" rfl rfl rfl rfl rfl,
    C4_amended.2.1 envC4rot [] "S" (0, 0, 0) (0, 0, 0) (1, 1, 1) [] (RetVal.str "B")
      RetVal.none "B" "timeout" rfl rfl rfl rfl rfl rfl,
    C4_amended.2.2.1 envC4scl [] "S" (0, 0, 0) (0, 0, 0) (1, 1, 1) [] (RetVal.str "B")
      RetVal.none RetVal.none "B" "timeout" rfl rfl rfl rfl rfl rfl rfl,
    C4_amended.2.2.2.1 envC4lab [] "S" (0, 0, 0) (0, 0, 0) (1, 1, 1) [] (RetVal.str "B")
      RetVal.none RetVal.none RetVal.none "B" "N" "timeout"
      rfl rfl rfl rfl rfl rfl rfl rfl rfl,
    C4_amended.2.2.2.2 envC4ok [] "S" (0, 0, 0) (0, 0, 0) (1, 1, 1) [] (RetVal.str "B")
      RetVal.none RetVal.none RetVal.none "B" rfl rfl rfl rfl rfl rfl rfl⟩

/-- Run of `spawn_blueprint_actor` in which the spawn call returns a
reference but the set-scale call raises: the enclosing handler returns
`None`. -/
theorem spawn_scale_error_run
    (env : Env) (tr : List Call) (bp : String) (loc rot scl : Vec3)
    (rv : RetVal) (p m : String)
    (hs : env (tr ++ [Call.spawnActorFromClass bp loc rot]) = Resp.ok rv)
    (ht : truthyOpt rv.asStrOpt = some p)
    (hne : scl ≠ ((1 : Rat), (1 : Rat), (1 : Rat)))
    (hsc : env (tr ++ [Call.spawnActorFromClass bp loc rot,
      Call.setActorScale3D p scl]) = Resp.error m) :
    spawn_blueprint_actor env tr bp loc rot scl Option.none =
      (Option.none, tr ++ [Call.spawnActorFromClass bp loc rot,
        Call.setActorScale3D p scl]) := by
  simp only [spawn_blueprint_actor, spawn_setScale,
    List.append_assoc, List.cons_append, List.nil_append, hs, ht, hne, hsc]
  simp

/-- Run of `spawn_blueprint_actor` with default scale in which the spawn
call returns a reference but the set-label call raises: the enclosing
handler returns `None`. -/
theorem spawn_label_error_run
    (env : Env) (tr : List Call) (bp : String) (loc rot : Vec3)
    (rv : RetVal) (p n m : String)
    (hs : env (tr ++ [Call.spawnActorFromClass bp loc rot]) = Resp.ok rv)
    (ht : truthyOpt rv.asStrOpt = some p)
    (hn : n.isEmpty = false)
    (hl : env (tr ++ [Call.spawnActorFromClass bp loc rot,
      Call.setActorLabel p n]) = Resp.error m) :
    spawn_blueprint_actor env tr bp loc rot ((1 : Rat), (1 : Rat), (1 : Rat)) (some n) =
      (Option.none, tr ++ [Call.spawnActorFromClass bp loc rot,
        Call.setActorLabel p n]) := by
  simp only [spawn_blueprint_actor, spawn_setScale, spawn_setLabel,
    List.append_assoc, List.cons_append, List.nil_append, hs, ht, hn, hl]
  simp [truthyOpt, hn, hl]

/-- Run of `spawn_blueprint_actor` in which the spawn call returns a
reference and the requested set-scale call succeeds. -/
theorem spawn_scale_ok_run
    (env : Env) (tr : List Call) (bp : String) (loc rot scl : Vec3)
    (rv rS : RetVal) (p : String)
    (hs : env (tr ++ [Call.spawnActorFromClass bp loc rot]) = Resp.ok rv)
    (ht : truthyOpt rv.asStrOpt = some p)
    (hne : scl ≠ ((1 : Rat), (1 : Rat), (1 : Rat)))
    (hsc : env (tr ++ [Call.spawnActorFromClass bp loc rot,
      Call.setActorScale3D p scl]) = Resp.ok rS) :
    spawn_blueprint_actor env tr bp loc rot scl Option.none =
      (some p, tr ++ [Call.spawnActorFromClass bp loc rot,
        Call.setActorScale3D p scl]) := by
  simp only [spawn_blueprint_actor, spawn_setScale,
    List.append_assoc, List.cons_append, List.nil_append, hs, ht, hne, hsc]
  simp [spawn_setLabel, truthyOpt]

/-- C5 counterexample environment: the spawn call returns reference `P`,
every later call raises. -/
def envC5 : Env := fun h =>
  match h.length with
  | 1 => Resp.ok (RetVal.str "P")
  | _ => Resp.error "timeout"

/-- C5 counterexample: the spawn-from-class call succeeds with reference
`P`, a non-default scale is requested, and the failing set-scale call
makes `spawn_blueprint_actor` return no reference, contradicting the
claim that a set-scale failure does not invalidate the spawn. -/
theorem C5_counterexample :
    (spawn_blueprint_actor envC5 [] "bp" (0, 0, 0) (0, 0, 0) (2, 2, 2) Option.none).1 =
      Option.none ∧
    envC5 [Call.spawnActorFromClass "bp" (0, 0, 0) (0, 0, 0)] =
      Resp.ok (RetVal.str "P") :=
  ⟨rfl, rfl⟩

/-- C5 amended: when the spawn-from-class call returns a reference, a
raised transport failure in the optional set-scale call (first part) or
set-label call (second part) is caught by the enclosing handler and the
whole spawn returns no reference; the reference is returned when the
issued follow-up calls succeed (third part). -/
theorem C5_amended :
    (∀ (env : Env) (tr : List Call) (bp : String) (loc rot scl : Vec3)
      (rv : RetVal) (p m : String),
      env (tr ++ [Call.spawnActorFromClass bp loc rot]) = Resp.ok rv →
      truthyOpt rv.asStrOpt = some p →
      scl ≠ ((1 : Rat), (1 : Rat), (1 : Rat)) →
      env (tr ++ [Call.spawnActorFromClass bp loc rot,
        Call.setActorScale3D p scl]) = Resp.error m →
      spawn_blueprint_actor env tr bp loc rot scl Option.none =
        (Option.none, tr ++ [Call.spawnActorFromClass bp loc rot,
          Call.setActorScale3D p scl])) ∧
    (∀ (env : Env) (tr : List Call) (bp : String) (loc rot : Vec3)
      (rv : RetVal) (p n m : String),
      env (tr ++ [Call.spawnActorFromClass bp loc rot]) = Resp.ok rv →
      truthyOpt rv.asStrOpt = some p →
      n.isEmpty = false →
      env (tr ++ [Call.spawnActorFromClass bp loc rot,
        Call.setActorLabel p n]) = Resp.error m →
      spawn_blueprint_actor env tr bp loc rot ((1 : Rat), (1 : Rat), (1 : Rat))
          (some n) =
        (Option.none, tr ++ [Call.spawnActorFromClass bp loc rot,
          Call.setActorLabel p n])) ∧
    (∀ (env : Env) (tr : List Call) (bp : String) (loc rot scl : Vec3)
      (rv rS : RetVal) (p : String),
      env (tr ++ [Call.spawnActorFromClass bp loc rot]) = Resp.ok rv →
      truthyOpt rv.asStrOpt = some p →
      scl ≠ ((1 : Rat), (1 : Rat), (1 : Rat)) →
      env (tr ++ [Call.spawnActorFromClass bp loc rot,
        Call.setActorScale3D p scl]) = Resp.ok rS →
      spawn_blueprint_actor env tr bp loc rot scl Option.none =
        (some p, tr ++ [Call.spawnActorFromClass bp loc rot,
          Call.setActorScale3D p scl])) :=
  ⟨spawn_scale_error_run, spawn_label_error_run, spawn_scale_ok_run⟩

/-- C5 amended witness environment: the spawn call returns `P` and every
later call succeeds. -/
def envC5ok : Env := fun h =>
  match h.length with
  | 1 => Resp.ok (RetVal.str "P")
  | _ => Resp.ok RetVal.none

theorem C5_amended_witness :
    spawn_blueprint_actor envC5 [] "bp" (0, 0, 0) (0, 0, 0) (2, 2, 2) Option.none =
      (Option.none, [Call.spawnActorFromClass "bp" (0, 0, 0) (0, 0, 0),
        Call.setActorScale3D "P" (2, 2, 2)]) ∧
    spawn_blueprint_actor envC5 [] "bp" (0, 0, 0) (0, 0, 0) (1, 1, 1) (some "N") =
      (Option.none, [Call.spawnActorFromClass "bp" (0, 0, 0) (0, 0, 0),
        Call.setActorLabel "P" "N"]) ∧
    spawn_blueprint_actor envC5ok [] "bp" (0, 0, 0) (0, 0, 0) (2, 2, 2) Option.none =
      (some "P", [Call.spawnActorFromClass "bp" (0, 0, 0) (0, 0, 0),
        Call.setActorScale3D "P" (2, 2, 2)]) :=
  ⟨C5_amended.1 envC5 [] "bp" (0, 0, 0) (0, 0, 0) (2, 2, 2) (RetVal.str "P") "P"
      "timeout" rfl rfl (by decide) rfl,
    C5_amended.2.1 envC5 [] "bp" (0, 0, 0) (0, 0, 0) (RetVal.str "P") "P" "N"
      "timeout" rfl rfl rfl rfl,
    C5_amended.2.2 envC5ok [] "bp" (0, 0, 0) (0, 0, 0) (2, 2, 2) (RetVal.str "P")
      RetVal.none "P" rfl rfl (by decide) rfl⟩

/-- Location-group overlay of `modify_actor`: when some location
component is specified and nothing else is, the current location is
fetched, only the specified components are overlaid, and exactly one set
call is issued; no rotation, scale or label call is issued. -/
theorem modify_loc_overlay_run
    (env : Env) (tr : List Call) (actor : String)
    (x y z : Option Rat) (cx cy cz : Rat) (rv2 : RetVal)
    (hany : (x.isSome || y.isSome || z.isSome) = true)
    (hget : env (tr ++ [Call.getActorLocation actor]) =
      Resp.ok (RetVal.vecP ⟨some cx, some cy, some cz⟩))
    (hset : env (tr ++ [Call.getActorLocation actor,
      Call.setActorLocation actor (x.getD cx, y.getD cy, z.getD cz)]) = Resp.ok rv2) :
    modify_actor env tr actor x y z Option.none Option.none Option.none
        Option.none Option.none Option.none Option.none =
      (J.obj [("success", J.b true), ("actor_path", J.s actor),
        ("modified", J.obj [("location_cm",
          jVecXYZ (x.getD cx, y.getD cy, z.getD cz))])],
       tr ++ [Call.getActorLocation actor,
         Call.setActorLocation actor (x.getD cx, y.getD cy, z.getD cz)]) := by
  simp only [modify_actor, modify_locBlock, modify_rotBlock, modify_scaleBlock,
    modify_nameBlock, retVec, List.append_assoc, List.cons_append, List.nil_append,
    hany, hget, hset]
  simp [hget, hset]

/-- Rotation-group overlay of `modify_actor`: when some rotation
component is specified and nothing else is, the current rotation is
fetched, only the specified components are overlaid, and exactly one set
call is issued; no location, scale or label call is issued. -/
theorem modify_rot_overlay_run
    (env : Env) (tr : List Call) (actor : String)
    (pitch yaw roll : Option Rat) (cp cyw cr : Rat) (rv2 : RetVal)
    (hany : (pitch.isSome || yaw.isSome || roll.isSome) = true)
    (hget : env (tr ++ [Call.getActorRotation actor]) =
      Resp.ok (RetVal.vecP ⟨some cp, some cyw, some cr⟩))
    (hset : env (tr ++ [Call.getActorRotation actor,
      Call.setActorRotation actor (pitch.getD cp, yaw.getD cyw, roll.getD cr)]) =
      Resp.ok rv2) :
    modify_actor env tr actor Option.none Option.none Option.none pitch yaw roll
        Option.none Option.none Option.none Option.none =
      (J.obj [("success", J.b true), ("actor_path", J.s actor),
        ("modified", J.obj [("rotation",
          jVecPYR (pitch.getD cp, yaw.getD cyw, roll.getD cr))])],
       tr ++ [Call.getActorRotation actor,
         Call.setActorRotation actor (pitch.getD cp, yaw.getD cyw, roll.getD cr)]) := by
  simp only [modify_actor, modify_locBlock, modify_rotBlock, modify_scaleBlock,
    modify_nameBlock, retVec, List.append_assoc, List.cons_append, List.nil_append,
    hany, hget, hset]
  simp [hget, hset]

/-- Scale-group overlay of `modify_actor`: when some scale component is
specified and nothing else is, the current scale is fetched, only the
specified components are overlaid, and exactly one set call is issued; no
location, rotation or label call is issued. -/
theorem modify_scale_overlay_run
    (env : Env) (tr : List Call) (actor : String)
    (sx sy sz : Option Rat) (cx cy cz : Rat) (rv2 : RetVal)
    (hany : (sx.isSome || sy.isSome || sz.isSome) = true)
    (hget : env (tr ++ [Call.getActorScale3D actor]) =
      Resp.ok (RetVal.vecP ⟨some cx, some cy, some cz⟩))
    (hset : env (tr ++ [Call.getActorScale3D actor,
      Call.setActorScale3D actor (sx.getD cx, sy.getD cy, sz.getD cz)]) =
      Resp.ok rv2) :
    modify_actor env tr actor Option.none Option.none Option.none Option.none
        Option.none Option.none sx sy sz Option.none =
      (J.obj [("success", J.b true), ("actor_path", J.s actor),
        ("modified", J.obj [("scale",
          scaleResult actor (sx.getD cx, sy.getD cy, sz.getD cz))])],
       tr ++ [Call.getActorScale3D actor,
         Call.setActorScale3D actor (sx.getD cx, sy.getD cy, sz.getD cz)]) := by
  simp only [modify_actor, modify_locBlock, modify_rotBlock, modify_scaleBlock,
    modify_nameBlock, retVec, List.append_assoc, List.cons_append, List.nil_append,
    hany, hget, hset]
  simp [hget, hset]

/-- C6: in `modify_actor`, for each attribute group (location, rotation,
scale) independently: when some component of that group is specified and
no other field is, the current group value is fetched first, only the
specified components are overlaid, and exactly one set call for that
group is issued with the overlaid vector, so omitted axes keep their
fetched values; groups with no component specified issue no call at
all. -/
theorem C6_modify_overlay :
    (∀ (env : Env) (tr : List Call) (actor : String)
      (x y z : Option Rat) (cx cy cz : Rat) (rv2 : RetVal),
      (x.isSome || y.isSome || z.isSome) = true →
      env (tr ++ [Call.getActorLocation actor]) =
        Resp.ok (RetVal.vecP ⟨some cx, some cy, some cz⟩) →
      env (tr ++ [Call.getActorLocation actor,
        Call.setActorLocation actor (x.getD cx, y.getD cy, z.getD cz)]) =
        Resp.ok rv2 →
      modify_actor env tr actor x y z Option.none Option.none Option.none
          Option.none Option.none Option.none Option.none =
        (J.obj [("success", J.b true), ("actor_path", J.s actor),
          ("modified", J.obj [("location_cm",
            jVecXYZ (x.getD cx, y.getD cy, z.getD cz))])],
         tr ++ [Call.getActorLocation actor,
           Call.setActorLocation actor (x.getD cx, y.getD cy, z.getD cz)])) ∧
    (∀ (env : Env) (tr : List Call) (actor : String)
      (pitch yaw roll : Option Rat) (cp cyw cr : Rat) (rv2 : RetVal),
      (pitch.isSome || yaw.isSome || roll.isSome) = true →
      env (tr ++ [Call.getActorRotation actor]) =
        Resp.ok (RetVal.vecP ⟨some cp, some cyw, some cr⟩) →
      env (tr ++ [Call.getActorRotation actor,
        Call.setActorRotation actor (pitch.getD cp, yaw.getD cyw, roll.getD cr)]) =
        Resp.ok rv2 →
      modify_actor env tr actor Option.none Option.none Option.none pitch yaw roll
          Option.none Option.none Option.none Option.none =
        (J.obj [("success", J.b true), ("actor_path", J.s actor),
          ("modified", J.obj [("rotation",
            jVecPYR (pitch.getD cp, yaw.getD cyw, roll.getD cr))])],
         tr ++ [Call.getActorRotation actor,
           Call.setActorRotation actor (pitch.getD cp, yaw.getD cyw, roll.getD cr)])) ∧
    (∀ (env : Env) (tr : List Call) (actor : String)
      (sx sy sz : Option Rat) (cx cy cz : Rat) (rv2 : RetVal),
      (sx.isSome || sy.isSome || sz.isSome) = true →
      env (tr ++ [Call.getActorScale3D actor]) =
        Resp.ok (RetVal.vecP ⟨some cx, some cy, some cz⟩) →
      env (tr ++ [Call.getActorScale3D actor,
        Call.setActorScale3D actor (sx.getD cx, sy.getD cy, sz.getD cz)]) =
        Resp.ok rv2 →
      modify_actor env tr actor Option.none Option.none Option.none Option.none
          Option.none Option.none sx sy sz Option.none =
        (J.obj [("success", J.b true), ("actor_path", J.s actor),
          ("modified", J.obj [("scale",
            scaleResult actor (sx.getD cx, sy.getD cy, sz.getD cz))])],
         tr ++ [Call.getActorScale3D actor,
           Call.setActorScale3D actor (sx.getD cx, sy.getD cy, sz.getD cz)])) :=
  ⟨modify_loc_overlay_run, modify_rot_overlay_run, modify_scale_overlay_run⟩

/-- C6 witness environment: the actor sits at the origin with rotation
pitch 0, yaw 90, roll 0 and scale (2, 3, 4); every set call succeeds. -/
def envC6 : Env := fun h =>
  match h.getLast? with
  | some (Call.getActorLocation _) =>
    Resp.ok (RetVal.vecP ⟨some 0, some 0, some 0⟩)
  | some (Call.getActorRotation _) =>
    Resp.ok (RetVal.vecP ⟨some 0, some 90, some 0⟩)
  | some (Call.getActorScale3D _) =>
    Resp.ok (RetVal.vecP ⟨some 2, some 3, some 4⟩)
  | _ => Resp.ok RetVal.none

theorem C6_witness :
    modify_actor envC6 [] "act" (some 10) Option.none Option.none Option.none
        Option.none Option.none Option.none Option.none Option.none Option.none =
      (J.obj [("success", J.b true), ("actor_path", J.s "act"),
        ("modified", J.obj [("location_cm", jVecXYZ (10, 0, 0))])],
       [Call.getActorLocation "act", Call.setActorLocation "act" (10, 0, 0)]) ∧
    modify_actor envC6 [] "act" Option.none Option.none Option.none (some 45)
        Option.none Option.none Option.none Option.none Option.none Option.none =
      (J.obj [("success", J.b true), ("actor_path", J.s "act"),
        ("modified", J.obj [("rotation", jVecPYR (45, 90, 0))])],
       [Call.getActorRotation "act", Call.setActorRotation "act" (45, 90, 0)]) ∧
    modify_actor envC6 [] "act" Option.none Option.none Option.none Option.none
        Option.none Option.none (some 9) Option.none Option.none Option.none =
      (J.obj [("success", J.b true), ("actor_path", J.s "act"),
        ("modified", J.obj [("scale", scaleResult "act" (9, 3, 4))])],
       [Call.getActorScale3D "act", Call.setActorScale3D "act" (9, 3, 4)]) :=
  ⟨C6_modify_overlay.1 envC6 [] "act" (some 10) Option.none Option.none 0 0 0
      RetVal.none rfl rfl rfl,
    C6_modify_overlay.2.1 envC6 [] "act" (some 45) Option.none Option.none 0 90 0
      RetVal.none rfl rfl rfl,
    C6_modify_overlay.2.2 envC6 [] "act" (some 9) Option.none Option.none 2 3 4
      RetVal.none rfl rfl rfl⟩

/-- The success-shaped response of `modify_actor` has no `error` key. -/
theorem getField_err_success (a : String) (r : List (String × J)) :
    (J.obj [("success", J.b true), ("actor_path", J.s a),
      ("modified", J.obj r)]).getField "error" = Option.none := rfl

/-- The failure-shaped response of `modify_actor` carries the
no-modifications error message. -/
theorem getField_err_failure (a : String) (r : List (String × J)) :
    (J.obj [("success", J.b false), ("actor_path", J.s a),
      ("error", J.s "No modifications were specified"),
      ("results", J.obj r)]).getField "error" =
      some (J.s "No modifications were specified") := rfl

/-- `modify_actor` reports the no-modifications failure exactly when none
of its four blocks applied a modification. -/
theorem modify_nothing_iff
    (env : Env) (tr : List Call) (actor : String)
    (x y z pitch yaw roll sx sy sz : Option Rat) (name : Option String) :
    ((modify_actor env tr actor x y z pitch yaw roll sx sy sz name).1).getField
        "error" = some (J.s "No modifications were specified") ↔
      ((modify_locBlock env tr actor x y z).1 = false ∧
        (modify_rotBlock env (modify_locBlock env tr actor x y z).2.2 actor
          pitch yaw roll).1 = false ∧
        (modify_scaleBlock env (modify_rotBlock env
          (modify_locBlock env tr actor x y z).2.2 actor pitch yaw roll).2.2 actor
          sx sy sz).1 = false ∧
        (modify_nameBlock env (modify_scaleBlock env (modify_rotBlock env
          (modify_locBlock env tr actor x y z).2.2 actor pitch yaw roll).2.2 actor
          sx sy sz).2.2 actor name).1 = false) := by
  simp only [modify_actor]
  cases hL : (modify_locBlock env tr actor x y z).1 <;>
    cases hR : (modify_rotBlock env (modify_locBlock env tr actor x y z).2.2 actor
      pitch yaw roll).1 <;>
      cases hS : (modify_scaleBlock env (modify_rotBlock env
        (modify_locBlock env tr actor x y z).2.2 actor pitch yaw roll).2.2 actor
        sx sy sz).1 <;>
        cases hN : (modify_nameBlock env (modify_scaleBlock env (modify_rotBlock env
          (modify_locBlock env tr actor x y z).2.2 actor pitch yaw roll).2.2 actor
          sx sy sz).2.2 actor name).1 <;>
          simp [getField_err_success, getField_err_failure]

/-- A `modify_actor` request with no field specified issues no remote
call and reports the no-modifications failure. -/
theorem modify_allnone_run (env : Env) (tr : List Call) (actor : String) :
    modify_actor env tr actor Option.none Option.none Option.none Option.none
        Option.none Option.none Option.none Option.none Option.none Option.none =
      (J.obj [("success", J.b false), ("actor_path", J.s actor),
        ("error", J.s "No modifications were specified"), ("results", J.obj [])],
       tr) := by
  simp [modify_actor, modify_locBlock, modify_rotBlock, modify_scaleBlock,
    modify_nameBlock]

/-- C7 counterexample environment: reading the location succeeds, every
set call raises. -/
def envC7 : Env := fun h =>
  match h.getLast? with
  | some (Call.getActorLocation _) =>
    Resp.ok (RetVal.vecP ⟨some 0, some 0, some 0⟩)
  | _ => Resp.error "boom"

/-- C7 counterexample: a request that specifies `x = 10` (so a field IS
specified) still yields the `No modifications were specified` failure,
because its only set call failed; this contradicts the only-if direction
of the claim. -/
theorem C7_counterexample :
    ((modify_actor envC7 [] "act" (some 10) Option.none Option.none Option.none
        Option.none Option.none Option.none Option.none Option.none
        Option.none).1).getField "error" =
      some (J.s "No modifications were specified") ∧
    ((modify_actor envC7 [] "act" (some 10) Option.none Option.none Option.none
        Option.none Option.none Option.none Option.none Option.none
        Option.none).1).getField "success" = some (J.b false) :=
  ⟨rfl, rfl⟩

/-- C7 amended: `modify_actor` reports the no-modifications failure if
and only if no block applied a modification, that is, every requested
group or label failed and in particular, though not only, when no field
was specified; a request with no field specified always yields that
failure and issues no remote call. -/
theorem C7_amended :
    (∀ (env : Env) (tr : List Call) (actor : String)
      (x y z pitch yaw roll sx sy sz : Option Rat) (name : Option String),
      ((modify_actor env tr actor x y z pitch yaw roll sx sy sz name).1).getField
          "error" = some (J.s "No modifications were specified") ↔
        ((modify_locBlock env tr actor x y z).1 = false ∧
          (modify_rotBlock env (modify_locBlock env tr actor x y z).2.2 actor
            pitch yaw roll).1 = false ∧
          (modify_scaleBlock env (modify_rotBlock env
            (modify_locBlock env tr actor x y z).2.2 actor pitch yaw roll).2.2 actor
            sx sy sz).1 = false ∧
          (modify_nameBlock env (modify_scaleBlock env (modify_rotBlock env
            (modify_locBlock env tr actor x y z).2.2 actor pitch yaw roll).2.2 actor
            sx sy sz).2.2 actor name).1 = false)) ∧
    (∀ (env : Env) (tr : List Call) (actor : String),
      modify_actor env tr actor Option.none Option.none Option.none Option.none
          Option.none Option.none Option.none Option.none Option.none Option.none =
        (J.obj [("success", J.b false), ("actor_path", J.s actor),
          ("error", J.s "No modifications were specified"), ("results", J.obj [])],
         tr)) :=
  ⟨modify_nothing_iff, modify_allnone_run⟩

/-- `spawn_actor` always responds with an object carrying an explicit
`success` flag, whatever the transport does. -/
theorem spawn_actor_has_success
    (env : Env) (tr : List Call) (bp : String)
    (x y z pitch yaw roll sx sy sz : Rat) (name : Option String) :
    J.hasKey (spawn_actor env tr bp x y z pitch yaw roll sx sy sz name).1
      "success" = true := by
  simp only [spawn_actor]
  split <;> simp [J.hasKey]

/-- `modify_actor` always responds with an object carrying an explicit
`success` flag, whatever the transport does. -/
theorem modify_actor_has_success
    (env : Env) (tr : List Call) (actor : String)
    (x y z pitch yaw roll sx sy sz : Option Rat) (name : Option String) :
    J.hasKey (modify_actor env tr actor x y z pitch yaw roll sx sy sz name).1
      "success" = true := by
  simp only [modify_actor]
  split <;> simp [J.hasKey]

/-- `spawn_snowman_family` always responds with an object carrying an
explicit `success` flag, whatever the transport does. -/
theorem family_has_success
    (env : Env) (tr : List Call) (bx by_ bz spread : Rat) (rp : Bool) (rd : Rat) :
    J.hasKey (spawn_snowman_family env tr bx by_ bz spread rp rd).1
      "success" = true := by
  simp only [spawn_snowman_family]
  split <;> simp [J.hasKey]

/-- `get_all_scene_actors` always responds with the actors-and-count
object, which carries no `success` flag. -/
theorem scene_actors_shape (env : Env) (tr : List Call) :
    J.hasKey (get_all_scene_actors env tr).1 "actors" = true ∧
    J.hasKey (get_all_scene_actors env tr).1 "count" = true ∧
    J.hasKey (get_all_scene_actors env tr).1 "success" = false := by
  refine ⟨?_, ?_, ?_⟩ <;> simp [get_all_scene_actors, J.hasKey]

/-- C8 counterexample environment: the engine endpoint is down and every
call raises. -/
def envDown : Env := fun _ => Resp.error "connection refused"

/-- C8 counterexample: the `get_all_scene_actors` tool call returns a
structured result with no `success` flag at all, contradicting the claim
that every tool-surface call returns a result with an explicit success
flag. -/
theorem C8_counterexample :
    (get_all_scene_actors envDown []).1 =
      J.obj [("actors", J.arr []), ("count", J.q 0)] ∧
    J.hasKey (get_all_scene_actors envDown []).1 "success" = false :=
  ⟨rfl, rfl⟩

/-- C8 amended: `spawn_actor`, `modify_actor` and `spawn_snowman_family`
return, for every transport outcome, a structured result with an explicit
`success` flag, and no transport exception propagates out of any tool
call; `get_all_scene_actors`, however, returns the actors-and-count
object, which has no `success` flag (its failure branch with a plain
error string is unreachable because the listing helper traps every
transport failure). -/
theorem C8_amended :
    (∀ (env : Env) (tr : List Call) (bp : String)
      (x y z pitch yaw roll sx sy sz : Rat) (name : Option String),
      J.hasKey (spawn_actor env tr bp x y z pitch yaw roll sx sy sz name).1
        "success" = true) ∧
    (∀ (env : Env) (tr : List Call) (actor : String)
      (x y z pitch yaw roll sx sy sz : Option Rat) (name : Option String),
      J.hasKey (modify_actor env tr actor x y z pitch yaw roll sx sy sz name).1
        "success" = true) ∧
    (∀ (env : Env) (tr : List Call) (bx by_ bz spread : Rat) (rp : Bool) (rd : Rat),
      J.hasKey (spawn_snowman_family env tr bx by_ bz spread rp rd).1
        "success" = true) ∧
    (∀ (env : Env) (tr : List Call),
      J.hasKey (get_all_scene_actors env tr).1 "actors" = true ∧
      J.hasKey (get_all_scene_actors env tr).1 "count" = true ∧
      J.hasKey (get_all_scene_actors env tr).1 "success" = false) :=
  ⟨spawn_actor_has_success, modify_actor_has_success, family_has_success,
    scene_actors_shape⟩

/-- With `random_placement = false` the random draw is never consulted:
two runs with identical inputs produce identical responses, traces and
attempt lists, hence identical positions. -/
theorem family_no_randomness
    (env : Env) (tr : List Call) (bx by_ bz spread : Rat) (r1 r2 : Rat) :
    spawn_snowman_family env tr bx by_ bz spread false r1 =
      spawn_snowman_family env tr bx by_ bz spread false r2 := rfl

/-- When the initial spawn resolves a reference, a family run performs
exactly three actor-creation attempts: one spawn followed by two
duplicates. -/
theorem family_three_attempts
    (env : Env) (tr : List Call) (bx by_ bz spread : Rat) (rp : Bool) (rd : Rat)
    (p : String)
    (h : (spawn_blueprint_actor env tr "/Game/Snowman_BP.Snowman_BP_C"
      (bx, by_, bz) (0, 0, 0) (1.2, 1.2, 1.2) (some "Snowman_Center")).1 = some p) :
    (spawn_snowman_family env tr bx by_ bz spread rp rd).2.2 =
      [OpEvent.spawnAttempt, OpEvent.dupAttempt, OpEvent.dupAttempt] := by
  simp only [spawn_snowman_family, h]

/-- C9 counterexample: with the engine down the initial spawn fails and
the run makes exactly one actor-creation attempt, not three. -/
theorem C9_counterexample :
    (spawn_snowman_family envDown [] 0 0 0 1 false 1).2.2 =
      [OpEvent.spawnAttempt] := rfl

/-- C9 amended: with `random_placement = false` two runs with identical
inputs are identical (the random draw is not consulted), and every run in
which the initial spawn resolves a reference makes exactly three
actor-creation attempts, one spawn followed by two duplicates; when the
initial spawn fails, only the single spawn attempt is made. -/
theorem C9_amended :
    (∀ (env : Env) (tr : List Call) (bx by_ bz spread : Rat) (r1 r2 : Rat),
      spawn_snowman_family env tr bx by_ bz spread false r1 =
        spawn_snowman_family env tr bx by_ bz spread false r2) ∧
    (∀ (env : Env) (tr : List Call) (bx by_ bz spread : Rat) (rp : Bool) (rd : Rat)
      (p : String),
      (spawn_blueprint_actor env tr "/Game/Snowman_BP.Snowman_BP_C"
        (bx, by_, bz) (0, 0, 0) (1.2, 1.2, 1.2) (some "Snowman_Center")).1 = some p →
      (spawn_snowman_family env tr bx by_ bz spread rp rd).2.2 =
        [OpEvent.spawnAttempt, OpEvent.dupAttempt, OpEvent.dupAttempt]) :=
  ⟨family_no_randomness, family_three_attempts⟩

theorem C9_amended_witness :
    (spawn_snowman_family envC5ok [] 0 0 0 1 false 1).2.2 =
      [OpEvent.spawnAttempt, OpEvent.dupAttempt, OpEvent.dupAttempt] :=
  C9_amended.2 envC5ok [] 0 0 0 1 false 1 "P" (by
    have h12 : ¬((1.2 : Rat) = (1 : Rat)) := by norm_num
    simp only [spawn_blueprint_actor, spawn_setScale, spawn_setLabel, truthyOpt,
      RetVal.asStrOpt, envC5ok, Prod.mk.injEq, h12, List.length_cons,
      List.length_nil, List.append_assoc, List.cons_append, List.nil_append]
    simp [h12]
    rfl)

/-- Location group of `modify_actor` when the read succeeds at the
transport level but carries no `ReturnValue`: every unspecified component
is defaulted to 0 and written by the set call. -/
theorem modify_loc_default_run
    (env : Env) (tr : List Call) (actor : String) (xv : Rat) (rv2 : RetVal)
    (hget : env (tr ++ [Call.getActorLocation actor]) = Resp.ok RetVal.none)
    (hset : env (tr ++ [Call.getActorLocation actor,
      Call.setActorLocation actor (xv, 0, 0)]) = Resp.ok rv2) :
    modify_actor env tr actor (some xv) Option.none Option.none Option.none
        Option.none Option.none Option.none Option.none Option.none Option.none =
      (J.obj [("success", J.b true), ("actor_path", J.s actor),
        ("modified", J.obj [("location_cm", jVecXYZ (xv, 0, 0))])],
       tr ++ [Call.getActorLocation actor,
         Call.setActorLocation actor (xv, 0, 0)]) := by
  simp only [modify_actor, modify_locBlock, modify_rotBlock, modify_scaleBlock,
    modify_nameBlock, retVec, List.append_assoc, List.cons_append, List.nil_append,
    hget, Option.getD_some, Option.getD_none, Option.isSome_some, Option.isSome_none,
    hset]
  simp [hget, hset]

/-- Rotation group of `modify_actor` when the read succeeds at the
transport level but carries no `ReturnValue`: every unspecified component
is defaulted to 0 and written by the set call. -/
theorem modify_rot_default_run
    (env : Env) (tr : List Call) (actor : String) (yv : Rat) (rv2 : RetVal)
    (hget : env (tr ++ [Call.getActorRotation actor]) = Resp.ok RetVal.none)
    (hset : env (tr ++ [Call.getActorRotation actor,
      Call.setActorRotation actor (0, yv, 0)]) = Resp.ok rv2) :
    modify_actor env tr actor Option.none Option.none Option.none Option.none
        (some yv) Option.none Option.none Option.none Option.none Option.none =
      (J.obj [("success", J.b true), ("actor_path", J.s actor),
        ("modified", J.obj [("rotation", jVecPYR (0, yv, 0))])],
       tr ++ [Call.getActorRotation actor,
         Call.setActorRotation actor (0, yv, 0)]) := by
  simp only [modify_actor, modify_locBlock, modify_rotBlock, modify_scaleBlock,
    modify_nameBlock, retVec, List.append_assoc, List.cons_append, List.nil_append,
    hget, Option.getD_some, Option.getD_none, Option.isSome_some, Option.isSome_none,
    hset]
  simp [hget, hset]

/-- Scale group of `modify_actor` when the read succeeds but its
`ReturnValue` lacks the Y component: the unspecified Y axis is defaulted
to 1 while the present Z component is preserved, and both are written by
the set call. -/
theorem modify_scale_default_run
    (env : Env) (tr : List Call) (actor : String) (sv cx cz : Rat) (rv2 : RetVal)
    (hget : env (tr ++ [Call.getActorScale3D actor]) =
      Resp.ok (RetVal.vecP ⟨some cx, Option.none, some cz⟩))
    (hset : env (tr ++ [Call.getActorScale3D actor,
      Call.setActorScale3D actor (sv, 1, cz)]) = Resp.ok rv2) :
    modify_actor env tr actor Option.none Option.none Option.none Option.none
        Option.none Option.none (some sv) Option.none Option.none Option.none =
      (J.obj [("success", J.b true), ("actor_path", J.s actor),
        ("modified", J.obj [("scale", scaleResult actor (sv, 1, cz))])],
       tr ++ [Call.getActorScale3D actor,
         Call.setActorScale3D actor (sv, 1, cz)]) := by
  simp only [modify_actor, modify_locBlock, modify_rotBlock, modify_scaleBlock,
    modify_nameBlock, retVec, List.append_assoc, List.cons_append, List.nil_append,
    hget, Option.getD_some, Option.getD_none, Option.isSome_some, Option.isSome_none,
    hset]
  simp [hget, hset]

/-- C10: in `modify_actor`, when a pre-set read succeeds at the transport
level but its response carries no `ReturnValue` (first part location,
second part rotation) or lacks a component (third part, scale), the
unspecified components are filled with the fixed defaults, 0 for location
and rotation and 1 for scale, and written by the set call, so omitted
axes can be overwritten with defaults in this edge case. -/
theorem C10_modify_defaults :
    (∀ (env : Env) (tr : List Call) (actor : String) (xv : Rat) (rv2 : RetVal),
      env (tr ++ [Call.getActorLocation actor]) = Resp.ok RetVal.none →
      env (tr ++ [Call.getActorLocation actor,
        Call.setActorLocation actor (xv, 0, 0)]) = Resp.ok rv2 →
      modify_actor env tr actor (some xv) Option.none Option.none Option.none
          Option.none Option.none Option.none Option.none Option.none Option.none =
        (J.obj [("success", J.b true), ("actor_path", J.s actor),
          ("modified", J.obj [("location_cm", jVecXYZ (xv, 0, 0))])],
         tr ++ [Call.getActorLocation actor,
           Call.setActorLocation actor (xv, 0, 0)])) ∧
    (∀ (env : Env) (tr : List Call) (actor : String) (yv : Rat) (rv2 : RetVal),
      env (tr ++ [Call.getActorRotation actor]) = Resp.ok RetVal.none →
      env (tr ++ [Call.getActorRotation actor,
        Call.setActorRotation actor (0, yv, 0)]) = Resp.ok rv2 →
      modify_actor env tr actor Option.none Option.none Option.none Option.none
          (some yv) Option.none Option.none Option.none Option.none Option.none =
        (J.obj [("success", J.b true), ("actor_path", J.s actor),
          ("modified", J.obj [("rotation", jVecPYR (0, yv, 0))])],
         tr ++ [Call.getActorRotation actor,
           Call.setActorRotation actor (0, yv, 0)])) ∧
    (∀ (env : Env) (tr : List Call) (actor : String) (sv cx cz : Rat) (rv2 : RetVal),
      env (tr ++ [Call.getActorScale3D actor]) =
        Resp.ok (RetVal.vecP ⟨some cx, Option.none, some cz⟩) →
      env (tr ++ [Call.getActorScale3D actor,
        Call.setActorScale3D actor (sv, 1, cz)]) = Resp.ok rv2 →
      modify_actor env tr actor Option.none Option.none Option.none Option.none
          Option.none Option.none (some sv) Option.none Option.none Option.none =
        (J.obj [("success", J.b true), ("actor_path", J.s actor),
          ("modified", J.obj [("scale", scaleResult actor (sv, 1, cz))])],
         tr ++ [Call.getActorScale3D actor,
           Call.setActorScale3D actor (sv, 1, cz)])) :=
  ⟨modify_loc_default_run, modify_rot_default_run, modify_scale_default_run⟩

/-- C10 witness environment for the first part: every call succeeds with
no `ReturnValue`. -/
def envAllOk : Env := fun _ => Resp.ok RetVal.none

/-- C10 witness environment for the second part: the scale read returns a
mapping lacking its Y component. -/
def envC10b : Env := fun h =>
  match h.getLast? with
  | some (Call.getActorScale3D _) =>
    Resp.ok (RetVal.vecP ⟨some 5, Option.none, some 7⟩)
  | _ => Resp.ok RetVal.none

theorem C10_witness :
    modify_actor envAllOk [] "act" (some 10) Option.none Option.none Option.none
        Option.none Option.none Option.none Option.none Option.none Option.none =
      (J.obj [("success", J.b true), ("actor_path", J.s "act"),
        ("modified", J.obj [("location_cm", jVecXYZ (10, 0, 0))])],
       [Call.getActorLocation "act", Call.setActorLocation "act" (10, 0, 0)]) ∧
    modify_actor envAllOk [] "act" Option.none Option.none Option.none Option.none
        (some 33) Option.none Option.none Option.none Option.none Option.none =
      (J.obj [("success", J.b true), ("actor_path", J.s "act"),
        ("modified", J.obj [("rotation", jVecPYR (0, 33, 0))])],
       [Call.getActorRotation "act", Call.setActorRotation "act" (0, 33, 0)]) ∧
    modify_actor envC10b [] "act" Option.none Option.none Option.none Option.none
        Option.none Option.none (some 2) Option.none Option.none Option.none =
      (J.obj [("success", J.b true), ("actor_path", J.s "act"),
        ("modified", J.obj [("scale", scaleResult "act" (2, 1, 7))])],
       [Call.getActorScale3D "act", Call.setActorScale3D "act" (2, 1, 7)]) :=
  ⟨C10_modify_defaults.1 envAllOk [] "act" 10 RetVal.none rfl rfl,
    C10_modify_defaults.2.1 envAllOk [] "act" 33 RetVal.none rfl rfl,
    C10_modify_defaults.2.2 envC10b [] "act" 2 5 7 RetVal.none rfl rfl⟩
